import Mathlib

/-!
Shallow embedding of the deadline-calculation and calendar/ICS generation
engine of the bidcalendar-ai repository (src/unnamed/part_001, with the data
model of src/unnamed/part_007), together with a model of the JavaScript
`Date` primitives the code relies on (`new Date(string)` parsing per the
ECMAScript Date Time String Format, `Date.prototype.toISOString`, and epoch
millisecond arithmetic).

Modelling conventions:
* A JavaScript epoch time value is an `Int` (milliseconds since the Unix
  epoch).  A time value is valid iff its absolute value is at most
  8.64e15 ms; constructing a `Date` outside that range yields an Invalid
  Date, and `toISOString` on an Invalid Date throws a RangeError.  Code
  paths that can throw are modelled with `Except Unit`.
* Values of exactly-representable integer magnitude below 2^53 are exact in
  IEEE-754 doubles, and every day-multiple below 2^63 is exactly
  representable, so integer arithmetic plus the validity check is a faithful
  model of the JS number arithmetic in these functions.
* The host environment's local time zone is modelled as UTC (the browser
  code never assumes otherwise; anchors are expected to carry an explicit
  offset).  Under a fixed zero-offset host, `setHours(getHours()+1)` adds
  exactly 3600000 ms when the result is a valid date, and a date-time
  string without offset denotes UTC.
* `Math.random().toString(36).substr(2, 9)` and `new Date()` (the current
  instant) are ambient inputs of `generateICS`; they are modelled by an
  explicit generation context `GenCtx` supplying the current epoch
  millisecond and one arbitrary random token per `addEvent` call site.
-/

/-! ## Proleptic Gregorian calendar (the calendar of ECMAScript time values) -/

/-- Numerator of the year-of-era extraction formula (era = 400 Gregorian
years = 146097 days). -/
def numOf (doe : Nat) : Nat := doe - doe/1460 + doe/36524 - doe/146096

/-- Year of era (0..399) containing day-of-era `doe`. -/
def yoeOf (doe : Nat) : Nat := numOf doe / 365

/-- First day-of-era of year-of-era `yoe` (years here start on 1 March). -/
def yearStartOf (yoe : Nat) : Nat := 365*yoe + yoe/4 - yoe/100

/-- Whether the March-based year `yoe` of an era contains a 29 February at
its end (i.e. civil year `era*400 + yoe + 1` is a leap year). -/
def longYear (yoe : Nat) : Bool :=
  yoe == 399 || ((yoe+1) % 4 == 0 && (yoe+1) % 100 != 0)

/-- One past the last day-of-era of year-of-era `yoe`. -/
def endB (yoe : Nat) : Nat := if yoe = 399 then 146097 else yearStartOf (yoe+1)

/-- Boolean check validating the year-extraction formula at the two
boundary days of year-of-era `yoe`, and the year's length. -/
def yearCheck (yoe : Nat) : Bool :=
  Nat.beq (yoeOf (yearStartOf yoe)) yoe &&
  Nat.beq (yoeOf (endB yoe - 1)) yoe &&
  Nat.beq (endB yoe - yearStartOf yoe) (if longYear yoe then 366 else 365) &&
  Nat.ble (yearStartOf yoe) (endB yoe - 1)

/-- Boolean check validating the month/day extraction from a day-of-year
`doy` of a (long or short) March-based year. -/
def monthCheck (doy : Nat) (isLong : Bool) : Bool :=
  let mp := (5*doy+2)/153
  let mpd := (153*mp+2)/5
  let dm1 := doy - mpd
  let m := if mp < 10 then mp+3 else mp-9
  let mlen : Nat :=
    if m = 2 then (if isLong then 29 else 28)
    else if m = 4 ∨ m = 6 ∨ m = 9 ∨ m = 11 then 30 else 31
  Nat.ble mp 11 && Nat.ble mpd doy && Nat.ble (dm1+1) mlen &&
  Nat.beq (mpd + dm1) doy &&
  Nat.beq (if m ≤ 2 then m + 9 else m - 3) mp &&
  Nat.ble 1 m && Nat.ble m 12

/-- Calendar date: proleptic Gregorian year, month (1..12), day (1..31). -/
structure CivilDate where
  year : Int
  month : Nat
  day : Nat
deriving DecidableEq, Repr

/-- Whether a civil year is a Gregorian leap year. -/
def isLeapCivil (y : Int) : Bool :=
  (y % 4 == 0 && y % 100 != 0) || y % 400 == 0

/-- Number of days of month `m` of civil year `y`. -/
def monthLengthCivil (y : Int) (m : Nat) : Nat :=
  if m = 2 then (if isLeapCivil y then 29 else 28)
  else if m = 4 ∨ m = 6 ∨ m = 9 ∨ m = 11 then 30 else 31

/-- Era (block of 400 Gregorian years) containing day `z` (days since
1970-01-01, shifted to eras starting 0000-03-01). -/
def eraOfDays (z : Int) : Int := (z + 719468) / 146097

/-- Day of era (0..146096) of day `z`. -/
def doeOfDays (z : Int) : Nat := (z + 719468 - 146097 * eraOfDays z).toNat

/-- Day of (March-based) year of a day-of-era. -/
def doyOfDoe (doe : Nat) : Nat := doe - yearStartOf (yoeOf doe)

/-- Shifted month index (0 = March .. 11 = February) of a day-of-year. -/
def mpOfDoy (doy : Nat) : Nat := (5*doy+2)/153

/-- Day of month (1-based) of a day-of-year. -/
def dayOfDoy (doy : Nat) : Nat := doy - (153*(mpOfDoy doy)+2)/5 + 1

/-- Civil month (1..12) of a day-of-year. -/
def monthOfDoy (doy : Nat) : Nat :=
  if mpOfDoy doy < 10 then mpOfDoy doy + 3 else mpOfDoy doy - 9

/-- Civil date of the day `z` days after 1970-01-01 (proleptic Gregorian,
era decomposition). -/
def civilFromDays (z : Int) : CivilDate :=
  let doe := doeOfDays z
  let doy := doyOfDoe doe
  { year := eraOfDays z * 400 + yoeOf doe + (if monthOfDoy doy ≤ 2 then 1 else 0),
    month := monthOfDoy doy,
    day := dayOfDoy doy }

/-- Number of days from 1970-01-01 to civil date `y`-`m`-`d`. -/
def daysFromCivil (y : Int) (m d : Nat) : Int :=
  let y' : Int := y - (if m ≤ 2 then 1 else 0)
  let era := y' / 400
  let yoe := (y' - 400 * era).toNat
  let mp : Nat := if m ≤ 2 then m + 9 else m - 3
  let doy : Nat := (153*mp+2)/5 + (d-1)
  let doe : Nat := yearStartOf yoe + doy
  era * 146097 + (doe : Int) - 719468

/-! ## Range-bounded checking combinator (for the two finite lemmas) -/

/-- Binary-splitting evaluation of a boolean predicate on a `Nat` range,
with explicit fuel so that it reduces by iterated `Nat.rec`. -/
def checkRange (p : Nat → Bool) : Nat → Nat → Nat → Bool :=
  Nat.rec (motive := fun _ => Nat → Nat → Bool)
    (fun _ _ => false)
    (fun _ ih lo hi =>
      if Nat.ble hi lo then true
      else if Nat.beq hi (lo + 1) then p lo
      else ih lo ((lo + hi) / 2) && ih ((lo + hi) / 2) hi)

/-! ## Decimal digits, fixed-width rendering and reading -/

/-- The decimal digit character for `n` (0..9). -/
def digitChar (n : Nat) : Char := Char.ofNat (48 + n)

/-- Whether `c` is an ASCII decimal digit. -/
def isDigitChar (c : Char) : Bool := 48 ≤ c.toNat && c.toNat ≤ 57

/-- Numeric value of an ASCII decimal digit. -/
def digitVal (c : Char) : Nat := c.toNat - 48

/-- Two-digit zero-padded decimal rendering (of `n < 100`). -/
def pad2 (n : Nat) : List Char := [digitChar (n / 10 % 10), digitChar (n % 10)]

/-- Three-digit zero-padded decimal rendering (of `n < 1000`). -/
def pad3 (n : Nat) : List Char :=
  [digitChar (n / 100 % 10), digitChar (n / 10 % 10), digitChar (n % 10)]

/-- Four-digit zero-padded decimal rendering (of `n < 10000`). -/
def pad4 (n : Nat) : List Char :=
  [digitChar (n / 1000 % 10), digitChar (n / 100 % 10), digitChar (n / 10 % 10),
   digitChar (n % 10)]

/-- Six-digit zero-padded decimal rendering (of `n < 1000000`). -/
def pad6 (n : Nat) : List Char :=
  [digitChar (n / 100000 % 10), digitChar (n / 10000 % 10),
   digitChar (n / 1000 % 10), digitChar (n / 100 % 10), digitChar (n / 10 % 10),
   digitChar (n % 10)]

/-- Read exactly two decimal digits. -/
def read2 (l : List Char) : Option (Nat × List Char) :=
  match l with
  | c1 :: c2 :: r =>
    if isDigitChar c1 && isDigitChar c2 then
      some (digitVal c1 * 10 + digitVal c2, r)
    else none
  | _ => none

/-- Read exactly three decimal digits. -/
def read3 (l : List Char) : Option (Nat × List Char) :=
  match l with
  | c1 :: c2 :: c3 :: r =>
    if isDigitChar c1 && isDigitChar c2 && isDigitChar c3 then
      some (digitVal c1 * 100 + digitVal c2 * 10 + digitVal c3, r)
    else none
  | _ => none

/-- Read exactly four decimal digits. -/
def read4 (l : List Char) : Option (Nat × List Char) :=
  match l with
  | c1 :: c2 :: c3 :: c4 :: r =>
    if isDigitChar c1 && isDigitChar c2 && isDigitChar c3 && isDigitChar c4 then
      some (digitVal c1 * 1000 + digitVal c2 * 100 + digitVal c3 * 10 +
        digitVal c4, r)
    else none
  | _ => none

/-- Read exactly six decimal digits. -/
def read6 (l : List Char) : Option (Nat × List Char) :=
  match l with
  | c1 :: c2 :: c3 :: c4 :: c5 :: c6 :: r =>
    if isDigitChar c1 && isDigitChar c2 && isDigitChar c3 && isDigitChar c4 &&
        isDigitChar c5 && isDigitChar c6 then
      some (digitVal c1 * 100000 + digitVal c2 * 10000 + digitVal c3 * 1000 +
        digitVal c4 * 100 + digitVal c5 * 10 + digitVal c6, r)
    else none
  | _ => none

/-! ## Model of `Date.prototype.toISOString` -/

/-- The character sequence produced by `Date.prototype.toISOString` for the
time value `t`: `YYYY-MM-DDTHH:mm:ss.sssZ`, with the year written as a sign
and six digits when it lies outside 0..9999 (ECMAScript extended years). -/
def isoChars (t : Int) : List Char :=
  (if 0 ≤ (civilFromDays (t / 86400000)).year ∧
      (civilFromDays (t / 86400000)).year ≤ 9999 then
    pad4 (civilFromDays (t / 86400000)).year.toNat
  else
    (if (civilFromDays (t / 86400000)).year < 0 then '-' else '+') ::
      pad6 (civilFromDays (t / 86400000)).year.natAbs) ++
  '-' :: (pad2 (civilFromDays (t / 86400000)).month ++
  '-' :: (pad2 (civilFromDays (t / 86400000)).day ++
  'T' :: (pad2 ((t % 86400000).toNat / 3600000) ++
  ':' :: (pad2 ((t % 86400000).toNat % 3600000 / 60000) ++
  ':' :: (pad2 ((t % 86400000).toNat % 60000 / 1000) ++
  '.' :: (pad3 ((t % 86400000).toNat % 1000) ++ ['Z']))))))

/-- `Date.prototype.toISOString` on a valid time value. -/
def jsToISOString (t : Int) : String := String.mk (isoChars t)

/-! ## Model of `new Date(string)` (ECMAScript Date Time String Format)

The parser accepts the ECMAScript Date Time String Format
`YYYY[-MM[-DD]][THH:mm[:ss[.sss]][Z|+HH:mm|-HH:mm]]` with the year also in
extended six-digit signed form, validates field ranges (rejecting
out-of-range components as real engines do), and converts to an epoch
millisecond value; a missing offset is interpreted in host local time,
which this model fixes to UTC.  Strings outside this format are rejected
(engine-specific fallback formats are outside the model).  A time value
outside the valid range yields an Invalid Date, modelled as `none`. -/

/-- Final validation and conversion of all parsed components. -/
def finishParse (y : Int) (m d hh mi ss ms : Nat) (offMin : Int) : Option Int :=
  if 1 ≤ m ∧ m ≤ 12 ∧ 1 ≤ d ∧ d ≤ monthLengthCivil y m ∧
      (hh ≤ 23 ∨ (hh = 24 ∧ mi = 0 ∧ ss = 0 ∧ ms = 0)) ∧
      mi ≤ 59 ∧ ss ≤ 59 ∧ ms ≤ 999 then
    let t : Int := daysFromCivil y m d * 86400000 +
      ((hh*3600000 + mi*60000 + ss*1000 + ms : Nat) : Int) - offMin * 60000
    if t.natAbs ≤ 8640000000000000 then some t else none
  else none

/-- Numeric `+HH:mm` / `-HH:mm` offset after its sign. -/
def parseNumOffset (y : Int) (m d hh mi ss ms : Nat) (sign : Int)
    (l : List Char) : Option Int :=
  match read2 l with
  | none => none
  | some (oh, r1) =>
    match r1 with
    | [] => none
    | c :: r2 =>
      if c = ':' then
        match read2 r2 with
        | none => none
        | some (om, r3) =>
          if r3 = [] ∧ oh ≤ 23 ∧ om ≤ 59 then
            finishParse y m d hh mi ss ms (sign * ((oh:Int)*60 + om))
          else none
      else none

/-- Optional time-zone designator after the time. -/
def parseOffset (y : Int) (m d hh mi ss ms : Nat) (l : List Char) : Option Int :=
  match l with
  | [] => finishParse y m d hh mi ss ms 0
  | c :: r =>
    if c = 'Z' then (if r = [] then finishParse y m d hh mi ss ms 0 else none)
    else if c = '+' then parseNumOffset y m d hh mi ss ms 1 r
    else if c = '-' then parseNumOffset y m d hh mi ss ms (-1) r
    else none

/-- Optional `.sss` fraction after the seconds. -/
def parseFrac (y : Int) (m d hh mi ss : Nat) (l : List Char) : Option Int :=
  match l with
  | [] => parseOffset y m d hh mi ss 0 []
  | c :: r =>
    if c = '.' then
      match read3 r with
      | none => none
      | some (ms, r2) => parseOffset y m d hh mi ss ms r2
    else parseOffset y m d hh mi ss 0 (c :: r)

/-- Optional `:ss` after the minutes. -/
def parseSec (y : Int) (m d hh mi : Nat) (l : List Char) : Option Int :=
  match l with
  | [] => parseOffset y m d hh mi 0 0 []
  | c :: r =>
    if c = ':' then
      match read2 r with
      | none => none
      | some (ss, r2) => parseFrac y m d hh mi ss r2
    else parseOffset y m d hh mi 0 0 (c :: r)

/-- Mandatory `HH:mm` after the `T`. -/
def parseTimeAfterT (y : Int) (m d : Nat) (l : List Char) : Option Int :=
  match read2 l with
  | none => none
  | some (hh, r1) =>
    match r1 with
    | [] => none
    | c :: r2 =>
      if c = ':' then
        match read2 r2 with
        | none => none
        | some (mi, r3) => parseSec y m d hh mi r3
      else none

/-- Optional time part after a full date. -/
def parseTimeOpt (y : Int) (m d : Nat) (l : List Char) : Option Int :=
  match l with
  | [] => finishParse y m d 0 0 0 0 0
  | c :: r => if c = 'T' then parseTimeAfterT y m d r else none

/-- Optional `-DD` after the month. -/
def parseDay (y : Int) (m : Nat) (l : List Char) : Option Int :=
  match l with
  | [] => finishParse y m 1 0 0 0 0 0
  | c :: r =>
    if c = '-' then
      match read2 r with
      | none => none
      | some (d, r2) => parseTimeOpt y m d r2
    else if c = 'T' then parseTimeAfterT y m 1 r
    else none

/-- Optional `-MM` after the year. -/
def parseMonth (y : Int) (l : List Char) : Option Int :=
  match l with
  | [] => finishParse y 1 1 0 0 0 0 0
  | c :: r =>
    if c = '-' then
      match read2 r with
      | none => none
      | some (m, r2) => parseDay y m r2
    else if c = 'T' then parseTimeAfterT y 1 1 r
    else none

/-- Entry point: signed six-digit or plain four-digit year, then the rest. -/
def parseChars (l : List Char) : Option Int :=
  match l with
  | [] => none
  | c :: r =>
    if c = '+' then
      match read6 r with
      | none => none
      | some (y, r2) => parseMonth (y : Int) r2
    else if c = '-' then
      match read6 r with
      | none => none
      | some (y, r2) => if y = 0 then none else parseMonth (-(y : Int)) r2
    else
      match read4 (c :: r) with
      | none => none
      | some (y, r2) => parseMonth (y : Int) r2

/-- The epoch millisecond value of `new Date(s).getTime()`, or `none` for an
Invalid Date. -/
def jsDateParse (s : String) : Option Int := parseChars s.data

/-! ## Data model (src/unnamed/part_007: types.ts) -/

/-- User-configurable lead times for internal milestones, in days
(`LeadTimeSettings`).  Lead-time values are non-negative integers; the
settings-update boundary rejects anything else before it reaches the
deriver. -/
structure LeadTimeSettings where
  bondRequestDays : Nat
  finalizeBidDays : Nat
  finalizeRfiDays : Nat
  subcontractorBidDays : Nat
  scopeReviewDays : Nat
  addendumCheckDays : Nat
deriving DecidableEq, Repr

/-- `DEFAULT_LEAD_TIMES` from types.ts. -/
def DEFAULT_LEAD_TIMES : LeadTimeSettings :=
  { bondRequestDays := 5, finalizeBidDays := 1, finalizeRfiDays := 1,
    subcontractorBidDays := 7, scopeReviewDays := 10, addendumCheckDays := 3 }

/-- `FullProjectData` (= `ExtractedBidData` + `InternalEvents`).  Nullable
and optional string fields are `Option String`, with JavaScript `null` and
`undefined` both modelled as `none` (every use in the calendar module
null-coalesces them identically). -/
structure FullProjectData where
  projectName : String
  agencyName : String
  projectAddress : String
  projectDescription : Option String
  bidDueDate : Option String
  rfiDueDate : Option String
  siteVisitDate : Option String
  isSiteVisitMandatory : Bool
  rsvpDeadline : Option String
  bidBondRequirement : Option String
  comments : Option String
  bondRequestDeadline : Option String
  finalizeRfiDeadline : Option String
  finalizeBidPackageDeadline : Option String
  subcontractorBidDeadline : Option String
  scopeReviewDeadline : Option String
  addendumCheckDeadline : Option String
deriving DecidableEq, Repr

/-- The four reminder toggles of `ExportOptions`. -/
structure Reminders where
  oneHour : Bool
  oneDay : Bool
  threeDays : Bool
  oneWeek : Bool
deriving DecidableEq, Repr

/-- `ExportOptions` from types.ts. -/
structure ExportOptions where
  includeInternal : Bool
  reminders : Reminders
deriving DecidableEq, Repr

/-- JavaScript `x || null` on a nullable string (empty string is falsy). -/
def jsOrNull (o : Option String) : Option String :=
  match o with
  | none => none
  | some s => if s = "" then none else some s

/-- An anchor value on which the deadline deriver yields null: absent,
empty, or not parseable as an instant. -/
def anchorBad (a : Option String) : Prop :=
  match a with
  | none => True
  | some s => s = "" ∨ jsDateParse s = none

/-! ## Deadline deriver (src/unnamed/part_001: getDeadlineBefore and the
per-milestone wrappers, calculateInternalEvents) -/

/-- `getDeadlineBefore(dateStr, daysBefore)`: parse the anchor, subtract
`daysBefore` days of milliseconds, re-encode with `toISOString`.  The
`.error ()` branch models the RangeError that `toISOString` throws when the
subtraction leaves the valid Date range. -/
def getDeadlineBefore (dateStr : Option String) (daysBefore : Nat) :
    Except Unit (Option String) :=
  match dateStr with
  | none => .ok none
  | some s =>
    if s = "" then .ok none
    else
      match jsDateParse s with
      | none => .ok none
      | some t =>
        if (t - (daysBefore : Int) * 86400000).natAbs ≤ 8640000000000000 then
          .ok (some (jsToISOString (t - (daysBefore : Int) * 86400000)))
        else .error ()

/-- `getBondDeadline` (legacy wrapper). -/
def getBondDeadline (bidDateStr : Option String) (daysBefore : Nat := 5) :
    Except Unit (Option String) :=
  getDeadlineBefore bidDateStr daysBefore

/-- `getFinalizeBidDeadline` (legacy wrapper). -/
def getFinalizeBidDeadline (bidDateStr : Option String) (daysBefore : Nat := 1) :
    Except Unit (Option String) :=
  getDeadlineBefore bidDateStr daysBefore

/-- `getFinalizeRfiDeadline` (legacy wrapper). -/
def getFinalizeRfiDeadline (rfiDateStr : Option String) (daysBefore : Nat := 1) :
    Except Unit (Option String) :=
  getDeadlineBefore rfiDateStr daysBefore

/-- `getSubcontractorBidDeadline`. -/
def getSubcontractorBidDeadline (bidDateStr : Option String)
    (daysBefore : Nat := 7) : Except Unit (Option String) :=
  getDeadlineBefore bidDateStr daysBefore

/-- `getScopeReviewDeadline`. -/
def getScopeReviewDeadline (bidDateStr : Option String)
    (daysBefore : Nat := 10) : Except Unit (Option String) :=
  getDeadlineBefore bidDateStr daysBefore

/-- `getAddendumCheckDeadline`. -/
def getAddendumCheckDeadline (bidDateStr : Option String)
    (daysBefore : Nat := 3) : Except Unit (Option String) :=
  getDeadlineBefore bidDateStr daysBefore

/-- `calculateInternalEvents(data, settings)`: spread the input record and
replace the six derived-deadline fields (and normalize
`bidBondRequirement`), computing the fields in the source's textual order
so that an exception from any one computation aborts the whole call. -/
def calculateInternalEvents (data : FullProjectData)
    (settings : LeadTimeSettings := DEFAULT_LEAD_TIMES) :
    Except Unit FullProjectData :=
  match getBondDeadline (jsOrNull data.bidDueDate) settings.bondRequestDays with
  | .error e => .error e
  | .ok bond =>
  match getFinalizeBidDeadline (jsOrNull data.bidDueDate)
      settings.finalizeBidDays with
  | .error e => .error e
  | .ok finBid =>
  match getFinalizeRfiDeadline (jsOrNull data.rfiDueDate)
      settings.finalizeRfiDays with
  | .error e => .error e
  | .ok finRfi =>
  match getSubcontractorBidDeadline (jsOrNull data.bidDueDate)
      settings.subcontractorBidDays with
  | .error e => .error e
  | .ok subBid =>
  match getScopeReviewDeadline (jsOrNull data.bidDueDate)
      settings.scopeReviewDays with
  | .error e => .error e
  | .ok scope =>
  match getAddendumCheckDeadline (jsOrNull data.bidDueDate)
      settings.addendumCheckDays with
  | .error e => .error e
  | .ok addendum =>
  .ok { data with
    bidBondRequirement := jsOrNull data.bidBondRequirement,
    bondRequestDeadline := bond,
    finalizeBidPackageDeadline := finBid,
    finalizeRfiDeadline := finRfi,
    subcontractorBidDeadline := subBid,
    scopeReviewDeadline := scope,
    addendumCheckDeadline := addendum }

/-! ## Compact UTC formatting shared by the serializer and link builders -/

/-- `iso.replace(/[-:]/g, "").split(".")[0] + "Z"`: strip hyphens and
colons, truncate at the first dot, append `Z`. -/
def compactOfIso (s : String) : String :=
  String.mk (((s.data.filter (fun c => !(c == '-' || c == ':'))).takeWhile
    (fun c => !(c == '.'))) ++ ['Z'])

/-- Compact UTC basic-format rendering of a time value (the composition the
code applies to `toISOString` output). -/
def compactOf (t : Int) : String := compactOfIso (jsToISOString t)

/-- The serializer's `formatDate`: re-parse an ISO string, re-encode it
with `toISOString`, then compact it; empty string for an invalid date. -/
def formatDateStr (s : String) : String :=
  match jsDateParse s with
  | none => ""
  | some t => compactOfIso (jsToISOString t)

/-! ## URLSearchParams form-urlencoding -/

/-- UTF-8 bytes of a scalar value. -/
def utf8Bytes (c : Char) : List Nat :=
  if c.toNat < 128 then [c.toNat]
  else if c.toNat < 2048 then [192 + c.toNat / 64, 128 + c.toNat % 64]
  else if c.toNat < 65536 then
    [224 + c.toNat / 4096, 128 + c.toNat / 64 % 64, 128 + c.toNat % 64]
  else
    [240 + c.toNat / 262144, 128 + c.toNat / 4096 % 64, 128 + c.toNat / 64 % 64,
     128 + c.toNat % 64]

/-- Uppercase hexadecimal digit. -/
def hexDigit (n : Nat) : Char := if n < 10 then digitChar n else Char.ofNat (55 + n)

/-- Percent-encoding of one byte. -/
def percentByte (b : Nat) : List Char := ['%', hexDigit (b / 16), hexDigit (b % 16)]

/-- Characters the urlencoded serializer leaves as-is: ASCII alphanumerics
and `*`, `-`, `.`, `_`. -/
def isFormSafe (c : Char) : Bool :=
  (48 ≤ c.toNat && c.toNat ≤ 57) || (65 ≤ c.toNat && c.toNat ≤ 90) ||
  (97 ≤ c.toNat && c.toNat ≤ 122) ||
  c.toNat == 42 || c.toNat == 45 || c.toNat == 46 || c.toNat == 95

/-- `application/x-www-form-urlencoded` serialization of one character. -/
def formEncodeChar (c : Char) : List Char :=
  if c = ' ' then ['+']
  else if isFormSafe c then [c]
  else (utf8Bytes c).flatMap percentByte

/-- `application/x-www-form-urlencoded` serialization of a string, as
`URLSearchParams.prototype.toString` applies to each value. -/
def formEncode (s : String) : String := String.mk (s.data.flatMap formEncodeChar)

/-! ## Calendar deep-link builders (src/unnamed/part_001) -/

/-- `generateGoogleCalendarUrl(summary, dateStr, description, location)`.
The `.error ()` branch models the uncaught RangeError thrown by
`endD.toISOString()` when start + 1 h leaves the valid Date range. -/
def generateGoogleCalendarUrl (summary : String) (dateStr : Option String)
    (description : String) (location : String := "") : Except Unit String :=
  match dateStr with
  | none => .ok ""
  | some ds =>
    if ds = "" then .ok ""
    else
      match jsDateParse ds with
      | none => .ok ""
      | some t =>
        if (t + 3600000).natAbs ≤ 8640000000000000 then
          .ok ("https://www.google.com/calendar/render?action=TEMPLATE&text=" ++
            formEncode summary ++ "&dates=" ++
            formEncode (compactOf t ++ "/" ++ compactOf (t + 3600000)) ++
            "&details=" ++ formEncode description ++
            "&location=" ++ formEncode location)
        else .error ()

/-- `generateOutlookCalendarUrl(summary, dateStr, description, location)`,
with the same RangeError model as the Google builder. -/
def generateOutlookCalendarUrl (summary : String) (dateStr : Option String)
    (description : String) (location : String := "") : Except Unit String :=
  match dateStr with
  | none => .ok ""
  | some ds =>
    if ds = "" then .ok ""
    else
      match jsDateParse ds with
      | none => .ok ""
      | some t =>
        if (t + 3600000).natAbs ≤ 8640000000000000 then
          .ok ("https://outlook.office.com/calendar/0/deeplink/compose?path=" ++
            formEncode "/calendar/action/compose" ++ "&rru=addevent&subject=" ++
            formEncode summary ++ "&startdt=" ++ formEncode (jsToISOString t) ++
            "&enddt=" ++ formEncode (jsToISOString (t + 3600000)) ++
            "&body=" ++ formEncode description ++
            "&location=" ++ formEncode location)
        else .error ()

/-! ## ICS serializer (src/unnamed/part_001: generateICS) -/

/-- Ambient generation context of one `generateICS` run: the clock value
`new Date()` reads and the token `Math.random().toString(36).substr(2, 9)`
yields, one of each per `addEvent` call site (indexed 0..9 in source
order). -/
structure GenCtx where
  nowMs : Nat → Int
  tok : Nat → String

/-- `comments.replace(/\n/g, "\\n")`: escape literal newlines as the
two-character sequence backslash-n. -/
def escNewlines (s : String) : String :=
  String.mk (s.data.flatMap (fun c => if c = '\n' then ['\\', 'n'] else [c]))

/-- The lines pushed by one `addEvent(summary, dateStr, description,
location)` call inside `generateICS` (empty when the event is skipped).
The final `else []` models the try/catch dropping the event when
`d.setHours(d.getHours() + 1)` leaves the valid Date range and
`d.toISOString()` throws. -/
def addEventLines (ctx : GenCtx) (k : Nat) (options : ExportOptions)
    (summary : String) (dateStr : Option String) (description : String)
    (location : String := "") : List String :=
  match dateStr with
  | none => []
  | some ds =>
    if ds = "" then []
    else
      match jsDateParse ds with
      | none => []
      | some t =>
        if formatDateStr ds = "" then []
        else if (t + 3600000).natAbs ≤ 8640000000000000 then
          ["BEGIN:VEVENT",
           "UID:" ++ formatDateStr (jsToISOString (ctx.nowMs k)) ++ "-" ++
             ctx.tok k ++ "@bidcalendar.ai",
           "DTSTAMP:" ++ formatDateStr (jsToISOString (ctx.nowMs k)),
           "DTSTART:" ++ formatDateStr ds,
           "DTEND:" ++ formatDateStr (jsToISOString (t + 3600000)),
           "SUMMARY:" ++ summary] ++
          (if description ≠ "" then ["DESCRIPTION:" ++ description] else []) ++
          (if location ≠ "" then ["LOCATION:" ++ location] else []) ++
          (if options.reminders.oneHour then
            ["BEGIN:VALARM", "ACTION:DISPLAY",
             "DESCRIPTION:Reminder: " ++ summary ++ " (1 Hour)",
             "TRIGGER:-PT1H", "END:VALARM"] else []) ++
          (if options.reminders.oneDay then
            ["BEGIN:VALARM", "ACTION:DISPLAY",
             "DESCRIPTION:Reminder: " ++ summary ++ " (1 Day)",
             "TRIGGER:-P1D", "END:VALARM"] else []) ++
          (if options.reminders.threeDays then
            ["BEGIN:VALARM", "ACTION:DISPLAY",
             "DESCRIPTION:Reminder: " ++ summary ++ " (3 Days)",
             "TRIGGER:-P3D", "END:VALARM"] else []) ++
          (if options.reminders.oneWeek then
            ["BEGIN:VALARM", "ACTION:DISPLAY",
             "DESCRIPTION:Reminder: " ++ summary ++ " (1 Week)",
             "TRIGGER:-P7D", "END:VALARM"] else []) ++
          ["END:VEVENT"]
        else []

/-- `Array.prototype.join(sep)`. -/
def jsJoin (sep : String) (l : List String) : String :=
  match l with
  | [] => ""
  | x :: xs => xs.foldl (fun acc y => acc ++ sep ++ y) x

/-- The fixed attribution footer appended to every event description. -/
def icsFooter : String := "\\n\\n--- Generated by BidCalendar AI ---"

/-- The `baseInfo` template assembled in `generateICS`. -/
def icsBaseInfo (data : FullProjectData) : String :=
  "Project: " ++ data.projectName ++ "\\nAgency: " ++ data.agencyName ++
  (if data.projectAddress ≠ "" then "\\nSite Location: " ++ data.projectAddress
    else "") ++
  (match data.projectDescription with
   | none => ""
   | some p => if p = "" then "" else "\\nScope: " ++ escNewlines p) ++
  (match data.bidBondRequirement with
   | none => ""
   | some b => if b = "" then "" else "\\nBid Bond Required: " ++ b) ++
  (match data.comments with
   | none => ""
   | some c => if c = "" then "" else "\\n\\nUser Notes:\\n" ++ escNewlines c)

/-- The `bondDesc` template of the internal bond-request event. -/
def icsBondDesc (data : FullProjectData) : String :=
  match data.bidBondRequirement with
  | none => "Internal Milestone: Submit bid bond request to your surety agent for " ++
      data.projectName ++ "."
  | some b =>
    if b = "" then
      "Internal Milestone: Submit bid bond request to your surety agent for " ++
        data.projectName ++ "."
    else
      "Internal Milestone: Submit bid bond request (" ++ b ++
        ") to your surety agent for " ++ data.projectName ++ "."

/-- The full line list of one `generateICS(data, options)` run. -/
def icsLines (ctx : GenCtx) (data : FullProjectData) (options : ExportOptions) :
    List String :=
  ["BEGIN:VCALENDAR", "VERSION:2.0", "PRODID:-//BidCalendarAI//Construction//EN",
   "CALSCALE:GREGORIAN", "METHOD:PUBLISH"] ++
  addEventLines ctx 0 options ("[BID DUE] " ++ data.projectName) data.bidDueDate
    ("CRITICAL DEADLINE: Official bid submission deadline for " ++
      data.projectName ++ ".\\n\\nAgency: " ++ data.agencyName ++ "\\n" ++
      icsBaseInfo data ++ icsFooter) data.projectAddress ++
  addEventLines ctx 1 options ("[RFI DUE] " ++ data.projectName) data.rfiDueDate
    ("Deadline to submit all Requests for Information (RFIs) to " ++
      data.agencyName ++ " for " ++ data.projectName ++ ".\\n\\n" ++
      icsBaseInfo data ++ icsFooter) data.projectAddress ++
  addEventLines ctx 2 options
    ("[" ++ (if data.isSiteVisitMandatory then "MANDATORY " else "") ++
      "SITE VISIT] " ++ data.projectName) data.siteVisitDate
    ((if data.isSiteVisitMandatory then "REQUIRED: " else "") ++
      "Site visit and pre-bid conference for " ++ data.projectName ++
      ".\\n\\n" ++ icsBaseInfo data ++ icsFooter) data.projectAddress ++
  addEventLines ctx 3 options ("[RSVP] Site Visit: " ++ data.projectName)
    data.rsvpDeadline
    ("Deadline to notify " ++ data.agencyName ++
      " of your intent to attend the site visit for " ++ data.projectName ++
      ".\\n\\n" ++ icsBaseInfo data ++ icsFooter) data.projectAddress ++
  (if options.includeInternal then
    addEventLines ctx 4 options ("[INTERNAL] Bond Request: " ++ data.projectName)
      data.bondRequestDeadline
      (icsBondDesc data ++ "\\n\\nThis deadline is set before the bid is due to " ++
        data.agencyName ++ ".\\n\\n" ++ icsBaseInfo data ++ icsFooter) ++
    addEventLines ctx 5 options
      ("[INTERNAL] Finalize RFI List: " ++ data.projectName)
      data.finalizeRfiDeadline
      ("Internal Milestone: Finalize all technical questions for " ++
        data.projectName ++ " to ensure submission by the " ++ data.agencyName ++
        " RFI deadline.\\n\\n" ++ icsBaseInfo data ++ icsFooter) ++
    addEventLines ctx 6 options
      ("[INTERNAL] Final Bid Package Prep: " ++ data.projectName)
      data.finalizeBidPackageDeadline
      ("Internal Milestone: Complete all estimate reviews and final documentation for the " ++
        data.projectName ++ " bid package.\\n\\n" ++ icsBaseInfo data ++ icsFooter) ++
    addEventLines ctx 7 options
      ("[INTERNAL] Subcontractor Bids Due: " ++ data.projectName)
      data.subcontractorBidDeadline
      ("Internal Milestone: Deadline for subcontractor pricing submissions for " ++
        data.projectName ++
        ".\\n\\nEnsure all trades have submitted their numbers.\\n\\n" ++
        icsBaseInfo data ++ icsFooter) ++
    addEventLines ctx 8 options ("[INTERNAL] Scope Review: " ++ data.projectName)
      data.scopeReviewDeadline
      ("Internal Milestone: Complete detailed scope review and takeoffs for " ++
        data.projectName ++
        ".\\n\\nVerify quantities and identify any gaps.\\n\\n" ++
        icsBaseInfo data ++ icsFooter) ++
    addEventLines ctx 9 options
      ("[INTERNAL] Addendum Check: " ++ data.projectName)
      data.addendumCheckDeadline
      ("Internal Milestone: Final addendum review for " ++ data.projectName ++
        ".\\n\\nEnsure all addenda are incorporated into your bid.\\n\\n" ++
        icsBaseInfo data ++ icsFooter)
  else []) ++
  ["END:VCALENDAR"]

/-- `generateICS(data, options)`: the joined document text. -/
def generateICS (ctx : GenCtx) (data : FullProjectData)
    (options : ExportOptions) : String :=
  jsJoin "\x0d\x0a" (icsLines ctx data options)

/-! ## Concrete fixtures used by witnesses and counterexamples -/

/-- All ten date fields of a record are null. -/
def allDatesNull (d : FullProjectData) : Prop :=
  d.bidDueDate = none ∧ d.rfiDueDate = none ∧ d.siteVisitDate = none ∧
  d.rsvpDeadline = none ∧ d.bondRequestDeadline = none ∧
  d.finalizeRfiDeadline = none ∧ d.finalizeBidPackageDeadline = none ∧
  d.subcontractorBidDeadline = none ∧ d.scopeReviewDeadline = none ∧
  d.addendumCheckDeadline = none

/-- A record with every date field null. -/
def projNull : FullProjectData :=
  { projectName := "P", agencyName := "A", projectAddress := "",
    projectDescription := none, bidDueDate := none, rfiDueDate := none,
    siteVisitDate := none, isSiteVisitMandatory := false, rsvpDeadline := none,
    bidBondRequirement := none, comments := none, bondRequestDeadline := none,
    finalizeRfiDeadline := none, finalizeBidPackageDeadline := none,
    subcontractorBidDeadline := none, scopeReviewDeadline := none,
    addendumCheckDeadline := none }

/-- A record with a valid bid-due anchor (2025-01-15T17:00:00.000Z). -/
def projBid : FullProjectData :=
  { projNull with
    projectName := "Test Project",
    agencyName := "City Agency",
    projectAddress := "1 Main St",
    bidDueDate := some "2025-01-15T17:00:00.000Z" }

/-- `calculateInternalEvents projBid DEFAULT_LEAD_TIMES` output. -/
def projBidOut : FullProjectData :=
  { projBid with
    bondRequestDeadline := some "2025-01-10T17:00:00.000Z",
    finalizeBidPackageDeadline := some "2025-01-14T17:00:00.000Z",
    finalizeRfiDeadline := none,
    subcontractorBidDeadline := some "2025-01-08T17:00:00.000Z",
    scopeReviewDeadline := some "2025-01-05T17:00:00.000Z",
    addendumCheckDeadline := some "2025-01-12T17:00:00.000Z" }

/-- Output for the same record under bond-request lead time 7. -/
def projBidOut7 : FullProjectData :=
  { projBidOut with bondRequestDeadline := some "2025-01-08T17:00:00.000Z" }

/-- Export options: internal milestones on, no reminders. -/
def opts0 : ExportOptions :=
  { includeInternal := true,
    reminders :=
      { oneHour := false, oneDay := false, threeDays := false,
        oneWeek := false } }

/-- One generation context. -/
def ctxA : GenCtx := { nowMs := fun _ => 1736500000000, tok := fun _ => "aaaaaaaaa" }

/-- A second generation context differing only in the random token. -/
def ctxB : GenCtx := { nowMs := fun _ => 1736500000000, tok := fun _ => "bbbbbbbbb" }

/-! ## Theorems and supporting lemmas -/

theorem checkRange_sound (p : Nat → Bool) :
    ∀ fuel lo hi, checkRange p fuel lo hi = true →
    ∀ k, lo ≤ k → k < hi → p k = true := by
  intro fuel
  induction fuel with
  | zero => intro lo hi h; exact absurd h (by simp [checkRange])
  | succ n ih =>
    intro lo hi h k hlo hhi
    have h' : (if Nat.ble hi lo then true
      else if Nat.beq hi (lo + 1) then p lo
      else checkRange p n lo ((lo + hi) / 2) && checkRange p n ((lo + hi) / 2) hi)
        = true := h
    by_cases h1 : Nat.ble hi lo = true
    · have := Nat.le_of_ble_eq_true h1; omega
    · rw [Bool.not_eq_true] at h1
      rw [h1] at h'
      simp only [Bool.false_eq_true, if_false] at h'
      by_cases h2 : Nat.beq hi (lo + 1) = true
      · rw [h2] at h'
        simp only [if_true] at h'
        have hhl : hi = lo + 1 := Nat.eq_of_beq_eq_true h2
        have hkl : k = lo := by omega
        subst hkl; exact h'
      · rw [Bool.not_eq_true] at h2
        rw [h2] at h'
        simp only [Bool.false_eq_true, if_false, Bool.and_eq_true] at h'
        by_cases hk : k < (lo + hi) / 2
        · exact ih lo ((lo+hi)/2) h'.1 k hlo hk
        · exact ih ((lo+hi)/2) hi h'.2 k (by omega) hhi

set_option maxRecDepth 2000 in
theorem yearCheck_all : ∀ yoe, yoe < 400 → yearCheck yoe = true := by
  intro yoe h
  exact checkRange_sound yearCheck 16 0 400 (by decide) yoe (Nat.zero_le _) h

set_option maxRecDepth 2000 in
theorem monthCheck_all : ∀ doy, doy < 366 →
    monthCheck doy true = true ∧ (doy < 365 → monthCheck doy false = true) := by
  have h1 : ∀ doy, doy < 366 → monthCheck doy true = true := by
    intro doy h
    exact checkRange_sound (fun k => monthCheck k true) 16 0 366 (by decide)
      doy (Nat.zero_le _) h
  have h2 : ∀ doy, doy < 365 → monthCheck doy false = true := by
    intro doy h
    exact checkRange_sound (fun k => monthCheck k false) 16 0 365 (by decide)
      doy (Nat.zero_le _) h
  exact fun doy h => ⟨h1 doy h, fun h' => h2 doy h'⟩

set_option maxHeartbeats 1000000 in
theorem numOf_step (d : Nat) (h : d < 146096) : numOf d ≤ numOf (d+1) := by
  unfold numOf
  omega

theorem numOf_mono {d1 d2 : Nat} (h : d1 ≤ d2) (h2 : d2 < 146097) :
    numOf d1 ≤ numOf d2 := by
  induction d2 with
  | zero =>
    have hz : d1 = 0 := by omega
    subst hz; exact Nat.le_refl _
  | succ n ih =>
    rcases Nat.lt_or_ge d1 (n+1) with hl | hl
    · exact Nat.le_trans (ih (by omega) (by omega)) (numOf_step n (by omega))
    · have he : d1 = n+1 := by omega
      subst he; exact Nat.le_refl _

theorem yoeOf_mono {d1 d2 : Nat} (h : d1 ≤ d2) (h2 : d2 < 146097) :
    yoeOf d1 ≤ yoeOf d2 := Nat.div_le_div_right (numOf_mono h h2)

/-- Unpacked form of `yearCheck_all`. -/
theorem yearFacts {yoe : Nat} (h : yoe < 400) :
    yoeOf (yearStartOf yoe) = yoe ∧ yoeOf (endB yoe - 1) = yoe ∧
    endB yoe - yearStartOf yoe = (if longYear yoe then 366 else 365) ∧
    yearStartOf yoe ≤ endB yoe - 1 := by
  have hc := yearCheck_all yoe h
  unfold yearCheck at hc
  simp only [Bool.and_eq_true] at hc
  exact ⟨Nat.eq_of_beq_eq_true hc.1.1.1, Nat.eq_of_beq_eq_true hc.1.1.2,
    Nat.eq_of_beq_eq_true hc.1.2, Nat.le_of_ble_eq_true hc.2⟩

/-- The year-extraction bracket: every day-of-era lies in the year the
formula assigns it. -/
theorem yoe_bracket {doe : Nat} (h : doe < 146097) :
    yoeOf doe ≤ 399 ∧ yearStartOf (yoeOf doe) ≤ doe ∧ doe < endB (yoeOf doe) := by
  have h399 := yearFacts (by omega : (399:Nat) < 400)
  have hend : endB 399 = 146097 := by simp [endB]
  have h9 : yoeOf 146096 = 399 := by
    have h9' : yoeOf (endB 399 - 1) = 399 := h399.2.1
    rw [hend] at h9'
    exact h9'
  have htop : yoeOf doe ≤ 399 := by
    have hm := yoeOf_mono (by omega : doe ≤ 146096) (by omega)
    omega
  refine ⟨htop, ?_, ?_⟩
  · by_contra hlt
    push_neg at hlt
    set y := yoeOf doe with hy
    have hy1 : 1 ≤ y := by
      rcases Nat.eq_zero_or_pos y with h0 | h1
      · rw [h0] at hlt; simp [yearStartOf] at hlt
      · exact h1
    have hyprev : y - 1 < 400 := by omega
    have hfp := yearFacts hyprev
    have hEnd : endB (y - 1) = yearStartOf y := by
      have hne : y - 1 ≠ 399 := by omega
      have hsuc : y - 1 + 1 = y := by omega
      rw [endB, if_neg hne, hsuc]
    have hle : doe ≤ endB (y-1) - 1 := by
      rw [hEnd]; omega
    have hlt2 : endB (y-1) - 1 < 146097 := by
      rw [hEnd]
      have hys : yearStartOf y ≤ 146096 := by
        unfold yearStartOf
        omega
      omega
    have hm := yoeOf_mono hle hlt2
    rw [hfp.2.1] at hm
    omega
  · by_contra hge
    push_neg at hge
    set y := yoeOf doe with hy
    have hyne : y ≠ 399 := by
      intro he
      rw [he, hend] at hge
      omega
    have hnext : y + 1 < 400 := by omega
    have hEnd : endB y = yearStartOf (y+1) := by
      rw [endB, if_neg hyne]
    have hfn := yearFacts hnext
    have hm := yoeOf_mono (hEnd ▸ hge : yearStartOf (y+1) ≤ doe) (by omega)
    rw [hfn.1] at hm
    omega

/-- Unpacked form of `monthCheck_all` in terms of the named projections. -/
theorem monthFacts {doy : Nat} {isLong : Bool}
    (h : doy < (if isLong then 366 else 365)) :
    mpOfDoy doy ≤ 11 ∧ (153*(mpOfDoy doy)+2)/5 ≤ doy ∧
    dayOfDoy doy ≤ (if monthOfDoy doy = 2 then (if isLong then 29 else 28)
      else if monthOfDoy doy = 4 ∨ monthOfDoy doy = 6 ∨ monthOfDoy doy = 9 ∨
        monthOfDoy doy = 11 then 30 else 31) ∧
    (153*(mpOfDoy doy)+2)/5 + (dayOfDoy doy - 1) = doy ∧
    (if monthOfDoy doy ≤ 2 then monthOfDoy doy + 9 else monthOfDoy doy - 3)
      = mpOfDoy doy ∧
    1 ≤ monthOfDoy doy ∧ monthOfDoy doy ≤ 12 := by
  have hc : monthCheck doy isLong = true := by
    cases isLong with
    | false =>
      rw [if_neg (by simp)] at h
      exact (monthCheck_all doy (by omega)).2 h
    | true =>
      rw [if_pos rfl] at h
      exact (monthCheck_all doy h).1
  unfold monthCheck at hc
  simp only [Bool.and_eq_true] at hc
  obtain ⟨⟨⟨⟨⟨⟨c1, c2⟩, c3⟩, c4⟩, c5⟩, c6⟩, c7⟩ := hc
  have e2 := Nat.le_of_ble_eq_true c2
  have e3 := Nat.le_of_ble_eq_true c3
  have e4 := Nat.eq_of_beq_eq_true c4
  simp only [dayOfDoy, monthOfDoy, mpOfDoy]
  refine ⟨Nat.le_of_ble_eq_true c1, e2, e3, by omega,
    Nat.eq_of_beq_eq_true c5, Nat.le_of_ble_eq_true c6, Nat.le_of_ble_eq_true c7⟩

/-- A civil year obtained from an era decomposition is a leap year exactly
when the era-relative flag `longYear` says so. -/
theorem leap_link (era : Int) (yoe : Nat) (h : yoe ≤ 399) :
    isLeapCivil (era*400 + (yoe:Int) + 1) = longYear yoe := by
  rw [Bool.eq_iff_iff]
  unfold isLeapCivil longYear
  simp only [Bool.or_eq_true, Bool.and_eq_true, beq_iff_eq, bne_iff_ne]
  omega

/-- `civilFromDays` is a section of `daysFromCivil`, and produces valid
month and day-of-month fields. -/
theorem civil_inverse (z : Int) :
    daysFromCivil (civilFromDays z).year (civilFromDays z).month
      (civilFromDays z).day = z ∧
    1 ≤ (civilFromDays z).month ∧ (civilFromDays z).month ≤ 12 ∧
    1 ≤ (civilFromDays z).day ∧
    (civilFromDays z).day ≤
      monthLengthCivil (civilFromDays z).year (civilFromDays z).month := by
  have hdoeI : (doeOfDays z : Int) = z + 719468 - 146097 * eraOfDays z := by
    unfold doeOfDays eraOfDays
    omega
  have hdoeB : doeOfDays z < 146097 := by
    unfold doeOfDays eraOfDays
    omega
  obtain ⟨hy399, hys, hendb⟩ := yoe_bracket hdoeB
  have hyf3 := (yearFacts (show yoeOf (doeOfDays z) < 400 by omega)).2.2.1
  have hdoyeq : doyOfDoe (doeOfDays z) =
      doeOfDays z - yearStartOf (yoeOf (doeOfDays z)) := rfl
  have hdoylen : doyOfDoe (doeOfDays z) <
      (if longYear (yoeOf (doeOfDays z)) then 366 else 365) := by
    cases hly : longYear (yoeOf (doeOfDays z)) with
    | false =>
      rw [hly] at hyf3
      rw [if_neg (by simp)] at hyf3 ⊢
      omega
    | true =>
      rw [hly] at hyf3
      rw [if_pos rfl] at hyf3 ⊢
      omega
  obtain ⟨m1, m2, m3, m4, m5, m6, m7⟩ := monthFacts hdoylen
  have hcd : civilFromDays z =
      { year := eraOfDays z * 400 + yoeOf (doeOfDays z) +
          (if monthOfDoy (doyOfDoe (doeOfDays z)) ≤ 2 then 1 else 0),
        month := monthOfDoy (doyOfDoe (doeOfDays z)),
        day := dayOfDoy (doyOfDoe (doeOfDays z)) } := rfl
  rw [hcd]
  refine ⟨?_, m6, m7, ?_, ?_⟩
  · simp only [daysFromCivil]
    have hyp : (eraOfDays z * 400 + (yoeOf (doeOfDays z) : Int) +
        (if monthOfDoy (doyOfDoe (doeOfDays z)) ≤ 2 then 1 else 0)) -
        (if monthOfDoy (doyOfDoe (doeOfDays z)) ≤ 2 then (1:Int) else 0) =
        eraOfDays z * 400 + (yoeOf (doeOfDays z) : Int) := by
      by_cases hm2 : monthOfDoy (doyOfDoe (doeOfDays z)) ≤ 2 <;> simp [hm2]
    rw [hyp]
    have hera : (eraOfDays z * 400 + (yoeOf (doeOfDays z) : Int)) / 400 =
        eraOfDays z := by omega
    rw [hera]
    have hyoe : ((eraOfDays z * 400 + (yoeOf (doeOfDays z) : Int)) -
        400 * eraOfDays z).toNat = yoeOf (doeOfDays z) := by omega
    rw [hyoe, m5]
    have hdrec : yearStartOf (yoeOf (doeOfDays z)) +
        ((153*(mpOfDoy (doyOfDoe (doeOfDays z)))+2)/5 +
          (dayOfDoy (doyOfDoe (doeOfDays z)) - 1)) = doeOfDays z := by
      rw [m4]
      omega
    rw [hdrec]
    omega
  · show 1 ≤ dayOfDoy (doyOfDoe (doeOfDays z))
    unfold dayOfDoy
    omega
  · show dayOfDoy (doyOfDoe (doeOfDays z)) ≤ monthLengthCivil
      (eraOfDays z * 400 + (yoeOf (doeOfDays z) : Int) +
        (if monthOfDoy (doyOfDoe (doeOfDays z)) ≤ 2 then 1 else 0))
      (monthOfDoy (doyOfDoe (doeOfDays z)))
    by_cases hm2 : monthOfDoy (doyOfDoe (doeOfDays z)) = 2
    · have hif : (if monthOfDoy (doyOfDoe (doeOfDays z)) ≤ 2 then (1:Int) else 0)
          = 1 := if_pos (by omega)
      rw [hif]
      unfold monthLengthCivil
      rw [if_pos hm2, leap_link (eraOfDays z) (yoeOf (doeOfDays z)) (by omega)]
      have m3b : dayOfDoy (doyOfDoe (doeOfDays z)) ≤
          (if longYear (yoeOf (doeOfDays z)) then 29 else 28) := by
        rw [if_pos hm2] at m3
        exact m3
      exact m3b
    · unfold monthLengthCivil
      rw [if_neg hm2] at m3 ⊢
      exact m3

theorem digitChar_spec : ∀ u, u < 10 → isDigitChar (digitChar u) = true ∧
    digitVal (digitChar u) = u := by decide

theorem digitChar_plain : ∀ u, u < 10 → digitChar u ≠ '+' ∧ digitChar u ≠ '-' ∧
    digitChar u ≠ 'T' ∧ digitChar u ≠ ':' ∧ digitChar u ≠ '.' ∧
    digitChar u ≠ 'Z' := by decide

theorem isDigit_mod (x : Nat) : isDigitChar (digitChar (x % 10)) = true :=
  (digitChar_spec (x % 10) (by omega)).1

theorem digitVal_mod (x : Nat) : digitVal (digitChar (x % 10)) = x % 10 :=
  (digitChar_spec (x % 10) (by omega)).2

theorem monthLengthCivil_le31 (y : Int) (m : Nat) : monthLengthCivil y m ≤ 31 := by
  unfold monthLengthCivil
  split
  · split <;> omega
  · split <;> omega

theorem read2_mod (n : Nat) (r : List Char) :
    read2 (digitChar (n/10%10) :: digitChar (n%10) :: r)
      = some (n/10%10*10 + n%10, r) := by
  simp only [read2, isDigit_mod, Bool.and_self, if_true, digitVal_mod]

theorem read3_mod (n : Nat) (r : List Char) :
    read3 (digitChar (n/100%10) :: digitChar (n/10%10) :: digitChar (n%10) :: r)
      = some (n/100%10*100 + n/10%10*10 + n%10, r) := by
  simp only [read3, isDigit_mod, Bool.and_self, if_true, digitVal_mod]

theorem read4_mod (n : Nat) (r : List Char) :
    read4 (digitChar (n/1000%10) :: digitChar (n/100%10) ::
      digitChar (n/10%10) :: digitChar (n%10) :: r)
      = some (n/1000%10*1000 + n/100%10*100 + n/10%10*10 + n%10, r) := by
  simp only [read4, isDigit_mod, Bool.and_self, if_true, digitVal_mod]

theorem read6_mod (n : Nat) (r : List Char) :
    read6 (digitChar (n/100000%10) :: digitChar (n/10000%10) ::
      digitChar (n/1000%10) :: digitChar (n/100%10) :: digitChar (n/10%10) ::
      digitChar (n%10) :: r)
      = some (n/100000%10*100000 + n/10000%10*10000 + n/1000%10*1000 +
        n/100%10*100 + n/10%10*10 + n%10, r) := by
  simp only [read6, isDigit_mod, Bool.and_self, if_true, digitVal_mod]

/-- Parsing the `-MM-DDTHH:mm:ss.sssZ` tail of a canonical ISO rendering
recovers the encoded time value. -/
theorem parseMonth_walk (y : Int) (m d hh mi ss ms : Nat) (tv : Int)
    (hm1 : 1 ≤ m) (hm12 : m ≤ 12) (hd1 : 1 ≤ d) (hdl : d ≤ monthLengthCivil y m)
    (hhh : hh ≤ 23) (hmi : mi ≤ 59) (hss : ss ≤ 59) (hms : ms ≤ 999)
    (htv : daysFromCivil y m d * 86400000 +
      ((hh*3600000 + mi*60000 + ss*1000 + ms : Nat) : Int) = tv)
    (hrange : tv.natAbs ≤ 8640000000000000) :
    parseMonth y ('-' :: (pad2 m ++ '-' :: (pad2 d ++ 'T' :: (pad2 hh ++
      ':' :: (pad2 mi ++ ':' :: (pad2 ss ++ '.' :: (pad3 ms ++ ['Z'])))))))
      = some tv := by
  have hml := monthLengthCivil_le31 y m
  have em : m/10%10*10 + m%10 = m := by omega
  have ed : d/10%10*10 + d%10 = d := by omega
  have ehh : hh/10%10*10 + hh%10 = hh := by omega
  have emi : mi/10%10*10 + mi%10 = mi := by omega
  have ess : ss/10%10*10 + ss%10 = ss := by omega
  have ems : ms/100%10*100 + ms/10%10*10 + ms%10 = ms := by omega
  simp only [pad2, pad3, List.cons_append, List.nil_append]
  simp only [parseMonth, parseDay, parseTimeOpt, parseTimeAfterT, parseSec,
    parseFrac, parseOffset, read2_mod, read3_mod, em, ed, ehh, emi, ess, ems,
    reduceIte]
  simp only [finishParse]
  rw [if_pos ⟨hm1, hm12, hd1, hdl, Or.inl hhh, hmi, hss, hms⟩]
  have ht0 : daysFromCivil y m d * 86400000 +
      ((hh*3600000 + mi*60000 + ss*1000 + ms : Nat) : Int) - 0 * 60000 = tv := by
    omega
  rw [ht0, if_pos hrange]

/-- The year field of a date within 10^8 days of the epoch is small. -/
theorem civil_year_bound (z : Int) (h : z.natAbs ≤ 100000000) :
    (civilFromDays z).year.natAbs ≤ 280000 := by
  have hdoeB : doeOfDays z < 146097 := by
    unfold doeOfDays eraOfDays
    omega
  have h399 := (yoe_bracket hdoeB).1
  have hyear : (civilFromDays z).year = eraOfDays z * 400 +
      yoeOf (doeOfDays z) + (if monthOfDoy (doyOfDoe (doeOfDays z)) ≤ 2
        then 1 else 0) := rfl
  have hera : -686 ≤ eraOfDays z ∧ eraOfDays z ≤ 690 := by
    unfold eraOfDays
    omega
  rw [hyear]
  by_cases hm : monthOfDoy (doyOfDoe (doeOfDays z)) ≤ 2 <;> simp [hm] <;> omega

/-- Parsing a canonical `toISOString` rendering of a valid time value
recovers that value: the formatter-parser round trip. -/
theorem jsDateParse_toISOString (t : Int) (h : t.natAbs ≤ 8640000000000000) :
    jsDateParse (jsToISOString t) = some t := by
  have hday : (t / 86400000).natAbs ≤ 100000000 := by omega
  obtain ⟨hrt, hm1, hm12, hd1, hdl⟩ := civil_inverse (t / 86400000)
  have hyb := civil_year_bound (t / 86400000) hday
  have htod : (t % 86400000).toNat < 86400000 := by omega
  have hrecon : daysFromCivil (civilFromDays (t / 86400000)).year
      (civilFromDays (t / 86400000)).month (civilFromDays (t / 86400000)).day
        * 86400000 +
      (((t % 86400000).toNat/3600000*3600000 +
        (t % 86400000).toNat%3600000/60000*60000 +
        (t % 86400000).toNat%60000/1000*1000 +
        (t % 86400000).toNat%1000 : Nat) : Int) = t := by
    rw [hrt]
    push_cast
    omega
  show parseChars (isoChars t) = some t
  rw [isoChars]
  by_cases hy : 0 ≤ (civilFromDays (t / 86400000)).year ∧
      (civilFromDays (t / 86400000)).year ≤ 9999
  · rw [if_pos hy]
    have hyt : (civilFromDays (t / 86400000)).year.toNat < 10000 := by omega
    have eY : (civilFromDays (t / 86400000)).year.toNat/1000%10*1000 +
        (civilFromDays (t / 86400000)).year.toNat/100%10*100 +
        (civilFromDays (t / 86400000)).year.toNat/10%10*10 +
        (civilFromDays (t / 86400000)).year.toNat%10 =
        (civilFromDays (t / 86400000)).year.toNat := by omega
    have hcast : (((civilFromDays (t / 86400000)).year.toNat : Nat) : Int) =
        (civilFromDays (t / 86400000)).year := by omega
    have hc1 := eq_false (digitChar_plain
      ((civilFromDays (t / 86400000)).year.toNat/1000%10) (by omega)).1
    have hc2 := eq_false (digitChar_plain
      ((civilFromDays (t / 86400000)).year.toNat/1000%10) (by omega)).2.1
    simp only [pad4, List.cons_append, List.nil_append, parseChars, hc1, hc2,
      if_false, read4_mod, eY, hcast]
    exact parseMonth_walk _ _ _ _ _ _ _ t hm1 hm12 hd1 hdl (by omega) (by omega)
      (by omega) (by omega) hrecon h
  · rw [if_neg hy]
    have hyabs : (civilFromDays (t / 86400000)).year.natAbs < 1000000 := by omega
    have eY : (civilFromDays (t / 86400000)).year.natAbs/100000%10*100000 +
        (civilFromDays (t / 86400000)).year.natAbs/10000%10*10000 +
        (civilFromDays (t / 86400000)).year.natAbs/1000%10*1000 +
        (civilFromDays (t / 86400000)).year.natAbs/100%10*100 +
        (civilFromDays (t / 86400000)).year.natAbs/10%10*10 +
        (civilFromDays (t / 86400000)).year.natAbs%10 =
        (civilFromDays (t / 86400000)).year.natAbs := by omega
    by_cases hneg : (civilFromDays (t / 86400000)).year < 0
    · rw [if_pos hneg]
      have hnz : ¬ ((civilFromDays (t / 86400000)).year.natAbs = 0) := by omega
      have hcast : -(((civilFromDays (t / 86400000)).year.natAbs : Nat) : Int) =
          (civilFromDays (t / 86400000)).year := by omega
      simp only [pad6, List.cons_append, List.nil_append, parseChars,
        read6_mod, eY, reduceIte, eq_false hnz, if_false, hcast]
      exact parseMonth_walk _ _ _ _ _ _ _ t hm1 hm12 hd1 hdl (by omega) (by omega)
        (by omega) (by omega) hrecon h
    · rw [if_neg hneg]
      have hcast : (((civilFromDays (t / 86400000)).year.natAbs : Nat) : Int) =
          (civilFromDays (t / 86400000)).year := by omega
      simp only [pad6, List.cons_append, List.nil_append, parseChars,
        read6_mod, eY, reduceIte, hcast]
      exact parseMonth_walk _ _ _ _ _ _ _ t hm1 hm12 hd1 hdl (by omega) (by omega)
        (by omega) (by omega) hrecon h

/-! ## Facts about the deadline deriver -/

theorem jsDateParse_empty : jsDateParse "" = none := rfl

theorem getDeadlineBefore_of_parse {s : String} {t : Int} (D : Nat)
    (hp : jsDateParse s = some t) :
    getDeadlineBefore (some s) D =
      (if (t - (D : Int) * 86400000).natAbs ≤ 8640000000000000 then
        .ok (some (jsToISOString (t - (D : Int) * 86400000))) else .error ()) := by
  have hs : s ≠ "" := by
    intro he
    rw [he, jsDateParse_empty] at hp
    exact Option.noConfusion hp
  simp [getDeadlineBefore, hs, hp]

theorem getDeadlineBefore_ok_none_iff (a : Option String) (D : Nat) :
    getDeadlineBefore a D = .ok none ↔ anchorBad a := by
  cases a with
  | none => simp [getDeadlineBefore, anchorBad]
  | some s =>
    by_cases hs : s = ""
    · subst hs
      simp [getDeadlineBefore, anchorBad]
    · cases hp : jsDateParse s with
      | none => simp [getDeadlineBefore, anchorBad, hs, hp]
      | some t =>
        constructor
        · intro h
          rw [getDeadlineBefore_of_parse D hp] at h
          split at h
          · exact absurd h (by simp)
          · exact absurd h (by simp)
        · intro hb
          have hb' : s = "" ∨ jsDateParse s = none := hb
          rcases hb' with hb' | hb'
          · exact absurd hb' hs
          · rw [hp] at hb'
            exact Option.noConfusion hb'

theorem getDeadlineBefore_jsOrNull (a : Option String) (D : Nat) :
    getDeadlineBefore (jsOrNull a) D = getDeadlineBefore a D := by
  cases a with
  | none => rfl
  | some s =>
    by_cases hs : s = ""
    · subst hs; rfl
    · simp [jsOrNull, hs]

theorem getDeadlineBefore_ok_none_of_bad {a : Option String} (D : Nat)
    (h : anchorBad a) : getDeadlineBefore a D = .ok none :=
  (getDeadlineBefore_ok_none_iff a D).2 h

theorem getDeadlineBefore_none_iff {a : Option String} {D : Nat}
    {r : Option String} (h : getDeadlineBefore a D = .ok r) :
    r = none ↔ anchorBad a := by
  constructor
  · intro hr
    subst hr
    exact (getDeadlineBefore_ok_none_iff a D).1 h
  · intro hb
    have h2 := getDeadlineBefore_ok_none_of_bad D hb
    rw [h] at h2
    exact Except.ok.inj h2

theorem jsOrNull_idem (a : Option String) : jsOrNull (jsOrNull a) = jsOrNull a := by
  cases a with
  | none => rfl
  | some s =>
    by_cases hs : s = ""
    · subst hs; rfl
    · simp [jsOrNull, hs]

/-! ## Facts about calculateInternalEvents -/

theorem calculateInternalEvents_elim {data : FullProjectData}
    {settings : LeadTimeSettings} {out : FullProjectData}
    (h : calculateInternalEvents data settings = .ok out) :
    getBondDeadline (jsOrNull data.bidDueDate) settings.bondRequestDays
        = .ok out.bondRequestDeadline ∧
    getFinalizeBidDeadline (jsOrNull data.bidDueDate) settings.finalizeBidDays
        = .ok out.finalizeBidPackageDeadline ∧
    getFinalizeRfiDeadline (jsOrNull data.rfiDueDate) settings.finalizeRfiDays
        = .ok out.finalizeRfiDeadline ∧
    getSubcontractorBidDeadline (jsOrNull data.bidDueDate)
        settings.subcontractorBidDays = .ok out.subcontractorBidDeadline ∧
    getScopeReviewDeadline (jsOrNull data.bidDueDate) settings.scopeReviewDays
        = .ok out.scopeReviewDeadline ∧
    getAddendumCheckDeadline (jsOrNull data.bidDueDate)
        settings.addendumCheckDays = .ok out.addendumCheckDeadline ∧
    out = { data with
      bidBondRequirement := jsOrNull data.bidBondRequirement,
      bondRequestDeadline := out.bondRequestDeadline,
      finalizeBidPackageDeadline := out.finalizeBidPackageDeadline,
      finalizeRfiDeadline := out.finalizeRfiDeadline,
      subcontractorBidDeadline := out.subcontractorBidDeadline,
      scopeReviewDeadline := out.scopeReviewDeadline,
      addendumCheckDeadline := out.addendumCheckDeadline } := by
  unfold calculateInternalEvents at h
  cases h1 : getBondDeadline (jsOrNull data.bidDueDate) settings.bondRequestDays with
  | error e =>
    simp only [h1] at h
    exact Except.noConfusion h
  | ok bond =>
  simp only [h1] at h
  cases h2 : getFinalizeBidDeadline (jsOrNull data.bidDueDate)
      settings.finalizeBidDays with
  | error e =>
    simp only [h2] at h
    exact Except.noConfusion h
  | ok finBid =>
  simp only [h2] at h
  cases h3 : getFinalizeRfiDeadline (jsOrNull data.rfiDueDate)
      settings.finalizeRfiDays with
  | error e =>
    simp only [h3] at h
    exact Except.noConfusion h
  | ok finRfi =>
  simp only [h3] at h
  cases h4 : getSubcontractorBidDeadline (jsOrNull data.bidDueDate)
      settings.subcontractorBidDays with
  | error e =>
    simp only [h4] at h
    exact Except.noConfusion h
  | ok subBid =>
  simp only [h4] at h
  cases h5 : getScopeReviewDeadline (jsOrNull data.bidDueDate)
      settings.scopeReviewDays with
  | error e =>
    simp only [h5] at h
    exact Except.noConfusion h
  | ok scope =>
  simp only [h5] at h
  cases h6 : getAddendumCheckDeadline (jsOrNull data.bidDueDate)
      settings.addendumCheckDays with
  | error e =>
    simp only [h6] at h
    exact Except.noConfusion h
  | ok addendum =>
  simp only [h6] at h
  have hout := (Except.ok.inj h).symm
  subst hout
  exact ⟨rfl, rfl, rfl, rfl, rfl, rfl, rfl⟩

theorem calculateInternalEvents_intro {data : FullProjectData}
    {settings : LeadTimeSettings} {b fb fr sb sc ac : Option String}
    (h1 : getBondDeadline (jsOrNull data.bidDueDate) settings.bondRequestDays
      = .ok b)
    (h2 : getFinalizeBidDeadline (jsOrNull data.bidDueDate)
      settings.finalizeBidDays = .ok fb)
    (h3 : getFinalizeRfiDeadline (jsOrNull data.rfiDueDate)
      settings.finalizeRfiDays = .ok fr)
    (h4 : getSubcontractorBidDeadline (jsOrNull data.bidDueDate)
      settings.subcontractorBidDays = .ok sb)
    (h5 : getScopeReviewDeadline (jsOrNull data.bidDueDate)
      settings.scopeReviewDays = .ok sc)
    (h6 : getAddendumCheckDeadline (jsOrNull data.bidDueDate)
      settings.addendumCheckDays = .ok ac) :
    calculateInternalEvents data settings = .ok { data with
      bidBondRequirement := jsOrNull data.bidBondRequirement,
      bondRequestDeadline := b,
      finalizeBidPackageDeadline := fb,
      finalizeRfiDeadline := fr,
      subcontractorBidDeadline := sb,
      scopeReviewDeadline := sc,
      addendumCheckDeadline := ac } := by
  unfold calculateInternalEvents
  simp only [h1, h2, h3, h4, h5, h6]

/-! ## Facts about the serializer -/

theorem jsJoin_cons_foldl (sep : String) (x : String) (xs : List String) :
    String.intercalate sep (x :: xs)
      = xs.foldl (fun acc y => acc ++ sep ++ y) x := by
  induction xs generalizing x with
  | nil => rfl
  | cons y ys ih =>
    have h : String.intercalate sep (x :: y :: ys)
        = String.intercalate sep ((x ++ sep ++ y) :: ys) := rfl
    rw [h, ih]
    rfl

theorem jsJoin_eq_intercalate (sep : String) (l : List String) :
    jsJoin sep l = String.intercalate sep l := by
  cases l with
  | nil => rfl
  | cons x xs => rw [jsJoin, jsJoin_cons_foldl]

theorem jsJoin_append_last (sep : String) (l : List String) (x : String) :
    ∃ p, jsJoin sep (l ++ [x]) = p ++ x := by
  cases l with
  | nil => exact ⟨"", by cases x; rfl⟩
  | cons y ys =>
    refine ⟨jsJoin sep (y :: ys) ++ sep, ?_⟩
    show (ys ++ [x]).foldl (fun acc z => acc ++ sep ++ z) y = _
    rw [List.foldl_append]
    rfl

theorem addEventLines_none (ctx : GenCtx) (k : Nat) (options : ExportOptions)
    (s desc loc : String) :
    addEventLines ctx k options s none desc loc = [] := rfl

theorem generateICS_allNull (ctx : GenCtx) {data : FullProjectData}
    (options : ExportOptions) (h : allDatesNull data) :
    generateICS ctx data options =
      "BEGIN:VCALENDAR\x0d\x0aVERSION:2.0\x0d\x0aPRODID:-//BidCalendarAI//Construction//EN\x0d\x0aCALSCALE:GREGORIAN\x0d\x0aMETHOD:PUBLISH\x0d\x0aEND:VCALENDAR" := by
  obtain ⟨h1, h2, h3, h4, h5, h6, h7, h8, h9, h10⟩ := h
  unfold generateICS icsLines
  rw [h1, h2, h3, h4, h5, h6, h7, h8, h9, h10]
  simp only [addEventLines_none, List.append_nil, List.nil_append, ite_self]
  rfl

theorem jsDateParse_some_ne_empty {s : String} {t : Int}
    (hp : jsDateParse s = some t) : s ≠ "" := by
  intro he
  rw [he, jsDateParse_empty] at hp
  exact Option.noConfusion hp

theorem anchorBad_jsOrNull (a : Option String) :
    anchorBad (jsOrNull a) ↔ anchorBad a := by
  cases a with
  | none => exact Iff.rfl
  | some s =>
    by_cases hs : s = ""
    · subst hs
      simp [jsOrNull, anchorBad]
    · simp [jsOrNull, hs]

theorem compactOf_ne_empty (t : Int) : compactOf t ≠ "" := by
  unfold compactOf compactOfIso
  intro h
  have h2 : ((jsToISOString t).data.filter
      (fun c => !(c == '-' || c == ':'))).takeWhile (fun c => !(c == '.'))
      ++ ['Z'] = [] := congrArg String.data h
  simp at h2

theorem formatDateStr_of_parse {ds : String} {t : Int}
    (hp : jsDateParse ds = some t) : formatDateStr ds = compactOf t := by
  simp [formatDateStr, hp, compactOf]

theorem formatDateStr_toISOString {t : Int}
    (h : t.natAbs ≤ 8640000000000000) :
    formatDateStr (jsToISOString t) = compactOf t := by
  simp [formatDateStr, jsDateParse_toISOString t h, compactOf]

/-- Claim C1, counterexample: with anchor `2025-02-03T17:00:00Z` and
`D = 10^9`, the subtraction leaves the valid Date range, `toISOString`
throws a RangeError, and `getDeadlineBefore` returns nothing at all, so the
claim's universally quantified statement fails. -/
theorem c1_counterexample :
    getDeadlineBefore (some "2025-02-03T17:00:00Z") 1000000000 = .error () ∧
    getDeadlineBefore (some "2025-02-03T17:00:00Z") 1000000000 ≠
      .ok (some (jsToISOString (1738602000000 - 1000000000 * 86400000))) := by
  constructor
  · rfl
  · intro h
    exact Except.noConfusion ((rfl :
      getDeadlineBefore (some "2025-02-03T17:00:00Z") 1000000000
        = .error ()).symm.trans h)

/-- Claim C1 (amended): for every anchor string that parses as a valid
instant `t` and every non-negative integer `D` such that
`t - D*86400000` lies within the valid Date range, `getDeadlineBefore`
returns exactly that instant re-encoded as a canonical ISO-8601 UTC
string, and parsing the result recovers the instant exactly — including
across month and year boundaries. -/
theorem c1_amended : ∀ (s : String) (t : Int) (D : Nat),
    jsDateParse s = some t →
    (t - (D : Int) * 86400000).natAbs ≤ 8640000000000000 →
    getDeadlineBefore (some s) D =
      .ok (some (jsToISOString (t - (D : Int) * 86400000))) ∧
    jsDateParse (jsToISOString (t - (D : Int) * 86400000)) =
      some (t - (D : Int) * 86400000) := by
  intro s t D hp hr
  exact ⟨by rw [getDeadlineBefore_of_parse D hp, if_pos hr],
    jsDateParse_toISOString _ hr⟩

/-- Witness for C1 (amended): the two boundary-crossing examples of the
specification, with the exact output strings. -/
theorem c1_amended_witness :
    getDeadlineBefore (some "2025-02-03T17:00:00Z") 5 =
      .ok (some "2025-01-29T17:00:00.000Z") ∧
    getDeadlineBefore (some "2025-01-03T17:00:00Z") 5 =
      .ok (some "2024-12-29T17:00:00.000Z") := by
  constructor
  · have h := (c1_amended "2025-02-03T17:00:00Z" 1738602000000 5 rfl
      (by decide)).1
    rw [h]
    rfl
  · have h := (c1_amended "2025-01-03T17:00:00Z" 1735923600000 5 rfl
      (by decide)).1
    rw [h]
    rfl

/-- Claim C3: for every non-negative integer `D`, the deadline deriver
applied to a null, empty, or unparseable anchor returns null and never
raises (the result is an `.ok`, never the `.error` that models a thrown
exception). -/
theorem c3_bad_anchor_null : ∀ (D : Nat) (a : Option String),
    anchorBad a → getDeadlineBefore a D = .ok none := by
  intro D a h
  exact getDeadlineBefore_ok_none_of_bad D h

/-- Witness for C3 at the spec's `"not-a-date"` example. -/
theorem c3_bad_anchor_null_witness :
    anchorBad (some "not-a-date") ∧
    getDeadlineBefore (some "not-a-date") 7 = .ok none := by
  refine ⟨Or.inr (by decide), ?_⟩
  exact c3_bad_anchor_null 7 (some "not-a-date") (Or.inr (by decide))

/-- Claim C2: whenever `calculateInternalEvents` produces an output record,
each of the six derived-deadline fields equals the deriver applied to
exactly one anchor (bid-due for bond-request, finalize-bid-package,
subcontractor-bid, scope-review and addendum-check; RFI-due for
finalize-RFI) and one lead-time value, and each field is null exactly when
that anchor is null, empty, or unparseable. -/
theorem c2_field_mapping : ∀ (data : FullProjectData)
    (settings : LeadTimeSettings) (out : FullProjectData),
    calculateInternalEvents data settings = .ok out →
    (getBondDeadline (jsOrNull data.bidDueDate) settings.bondRequestDays
        = .ok out.bondRequestDeadline ∧
      getFinalizeBidDeadline (jsOrNull data.bidDueDate) settings.finalizeBidDays
        = .ok out.finalizeBidPackageDeadline ∧
      getFinalizeRfiDeadline (jsOrNull data.rfiDueDate) settings.finalizeRfiDays
        = .ok out.finalizeRfiDeadline ∧
      getSubcontractorBidDeadline (jsOrNull data.bidDueDate)
        settings.subcontractorBidDays = .ok out.subcontractorBidDeadline ∧
      getScopeReviewDeadline (jsOrNull data.bidDueDate) settings.scopeReviewDays
        = .ok out.scopeReviewDeadline ∧
      getAddendumCheckDeadline (jsOrNull data.bidDueDate)
        settings.addendumCheckDays = .ok out.addendumCheckDeadline) ∧
    ((out.bondRequestDeadline = none ↔ anchorBad data.bidDueDate) ∧
      (out.finalizeBidPackageDeadline = none ↔ anchorBad data.bidDueDate) ∧
      (out.finalizeRfiDeadline = none ↔ anchorBad data.rfiDueDate) ∧
      (out.subcontractorBidDeadline = none ↔ anchorBad data.bidDueDate) ∧
      (out.scopeReviewDeadline = none ↔ anchorBad data.bidDueDate) ∧
      (out.addendumCheckDeadline = none ↔ anchorBad data.bidDueDate)) := by
  intro data settings out h
  obtain ⟨e1, e2, e3, e4, e5, e6, hrec⟩ := calculateInternalEvents_elim h
  refine ⟨⟨e1, e2, e3, e4, e5, e6⟩, ?_, ?_, ?_, ?_, ?_, ?_⟩
  · exact (getDeadlineBefore_none_iff e1).trans
      (anchorBad_jsOrNull data.bidDueDate)
  · exact (getDeadlineBefore_none_iff e2).trans
      (anchorBad_jsOrNull data.bidDueDate)
  · exact (getDeadlineBefore_none_iff e3).trans
      (anchorBad_jsOrNull data.rfiDueDate)
  · exact (getDeadlineBefore_none_iff e4).trans
      (anchorBad_jsOrNull data.bidDueDate)
  · exact (getDeadlineBefore_none_iff e5).trans
      (anchorBad_jsOrNull data.bidDueDate)
  · exact (getDeadlineBefore_none_iff e6).trans
      (anchorBad_jsOrNull data.bidDueDate)

/-- Witness for C2 at a record with a valid bid-due anchor and the default
lead times. -/
theorem c2_field_mapping_witness :
    calculateInternalEvents projBid DEFAULT_LEAD_TIMES = .ok projBidOut ∧
    (projBidOut.bondRequestDeadline = none ↔ anchorBad projBid.bidDueDate) := by
  have h : calculateInternalEvents projBid DEFAULT_LEAD_TIMES
      = .ok projBidOut := by rfl
  exact ⟨h, ((c2_field_mapping projBid DEFAULT_LEAD_TIMES projBidOut h).2).1⟩

/-- Claim C7: feeding the output of `calculateInternalEvents` back through
the same settings reproduces it exactly: the operation is idempotent. -/
theorem c7_idempotent : ∀ (data : FullProjectData)
    (settings : LeadTimeSettings) (out : FullProjectData),
    calculateInternalEvents data settings = .ok out →
    calculateInternalEvents out settings = .ok out := by
  intro data settings out h
  obtain ⟨e1, e2, e3, e4, e5, e6, hrec⟩ := calculateInternalEvents_elim h
  have hbid : out.bidDueDate = data.bidDueDate := by rw [hrec]
  have hrfi : out.rfiDueDate = data.rfiDueDate := by rw [hrec]
  have hbb : out.bidBondRequirement = jsOrNull data.bidBondRequirement := by
    rw [hrec]
  have f1 : getBondDeadline (jsOrNull out.bidDueDate) settings.bondRequestDays
      = .ok out.bondRequestDeadline := by rw [hbid]; exact e1
  have f2 : getFinalizeBidDeadline (jsOrNull out.bidDueDate)
      settings.finalizeBidDays = .ok out.finalizeBidPackageDeadline := by
    rw [hbid]; exact e2
  have f3 : getFinalizeRfiDeadline (jsOrNull out.rfiDueDate)
      settings.finalizeRfiDays = .ok out.finalizeRfiDeadline := by
    rw [hrfi]; exact e3
  have f4 : getSubcontractorBidDeadline (jsOrNull out.bidDueDate)
      settings.subcontractorBidDays = .ok out.subcontractorBidDeadline := by
    rw [hbid]; exact e4
  have f5 : getScopeReviewDeadline (jsOrNull out.bidDueDate)
      settings.scopeReviewDays = .ok out.scopeReviewDeadline := by
    rw [hbid]; exact e5
  have f6 : getAddendumCheckDeadline (jsOrNull out.bidDueDate)
      settings.addendumCheckDays = .ok out.addendumCheckDeadline := by
    rw [hbid]; exact e6
  have hcalc := calculateInternalEvents_intro f1 f2 f3 f4 f5 f6
  have hjs : jsOrNull out.bidBondRequirement = out.bidBondRequirement := by
    rw [hbb, jsOrNull_idem]
  rw [hcalc, hjs]

/-- Witness for C7 at the default lead times. -/
theorem c7_idempotent_witness :
    calculateInternalEvents projBid DEFAULT_LEAD_TIMES = .ok projBidOut ∧
    calculateInternalEvents projBidOut DEFAULT_LEAD_TIMES = .ok projBidOut := by
  have h : calculateInternalEvents projBid DEFAULT_LEAD_TIMES
      = .ok projBidOut := by rfl
  exact ⟨h, c7_idempotent projBid DEFAULT_LEAD_TIMES projBidOut h⟩

/-- Claim C8: starting from a record with a valid bid-due anchor and
settings whose bond-request lead time is 5 days, recomputing with only
`bondRequestDays` changed to 7 moves `bondRequestDeadline` from 5 days
before to 7 days before the same anchor and leaves every other field of
the output unchanged. -/
theorem c8_bond_frame : ∀ (data : FullProjectData) (settings : LeadTimeSettings)
    (out5 out7 : FullProjectData) (s : String) (t : Int),
    settings.bondRequestDays = 5 →
    data.bidDueDate = some s →
    jsDateParse s = some t →
    calculateInternalEvents data settings = .ok out5 →
    calculateInternalEvents data { settings with bondRequestDays := 7 }
      = .ok out7 →
    out5.bondRequestDeadline = some (jsToISOString (t - 5 * 86400000)) ∧
    out7.bondRequestDeadline = some (jsToISOString (t - 7 * 86400000)) ∧
    out7 = { out5 with bondRequestDeadline := out7.bondRequestDeadline } := by
  intro data settings out5 out7 s t h5 hbid hp hc5 hc7
  obtain ⟨a1, a2, a3, a4, a5, a6, arec⟩ := calculateInternalEvents_elim hc5
  obtain ⟨b1, b2, b3, b4, b5, b6, brec⟩ := calculateInternalEvents_elim hc7
  have hsne : s ≠ "" := jsDateParse_some_ne_empty hp
  have hjs : jsOrNull data.bidDueDate = some s := by
    rw [hbid]
    simp [jsOrNull, hsne]
  have hbond : ∀ (D : Nat) (r : Option String),
      getBondDeadline (some s) D = .ok r →
      (t - (D : Int) * 86400000).natAbs ≤ 8640000000000000 →
      r = some (jsToISOString (t - (D : Int) * 86400000)) := by
    intro D r hg hr
    have hg2 : getDeadlineBefore (some s) D = .ok r := hg
    rw [getDeadlineBefore_of_parse D hp, if_pos hr] at hg2
    exact (Except.ok.inj hg2).symm
  have hbondD : ∀ (D : Nat) (r : Option String),
      getBondDeadline (some s) D = .ok r →
      r = some (jsToISOString (t - (D : Int) * 86400000)) := by
    intro D r hg
    have hg2 : getDeadlineBefore (some s) D = .ok r := hg
    rw [getDeadlineBefore_of_parse D hp] at hg2
    by_cases hr : (t - (D : Int) * 86400000).natAbs ≤ 8640000000000000
    · rw [if_pos hr] at hg2
      exact (Except.ok.inj hg2).symm
    · rw [if_neg hr] at hg2
      exact Except.noConfusion hg2
  rw [hjs, h5] at a1
  have b1' : getBondDeadline (some s) 7 = .ok out7.bondRequestDeadline := by
    rw [← hjs]
    exact b1
  have hv5 : out5.bondRequestDeadline
      = some (jsToISOString (t - (5 : Int) * 86400000)) := hbondD 5 _ a1
  have hv7 : out7.bondRequestDeadline
      = some (jsToISOString (t - (7 : Int) * 86400000)) := hbondD 7 _ b1'
  have hfb : out7.finalizeBidPackageDeadline = out5.finalizeBidPackageDeadline :=
    Except.ok.inj ((b2 : getFinalizeBidDeadline (jsOrNull data.bidDueDate)
      settings.finalizeBidDays = .ok out7.finalizeBidPackageDeadline).symm.trans a2)
  have hfr : out7.finalizeRfiDeadline = out5.finalizeRfiDeadline :=
    Except.ok.inj ((b3 : getFinalizeRfiDeadline (jsOrNull data.rfiDueDate)
      settings.finalizeRfiDays = .ok out7.finalizeRfiDeadline).symm.trans a3)
  have hsb : out7.subcontractorBidDeadline = out5.subcontractorBidDeadline :=
    Except.ok.inj ((b4 : getSubcontractorBidDeadline (jsOrNull data.bidDueDate)
      settings.subcontractorBidDays = .ok out7.subcontractorBidDeadline).symm.trans a4)
  have hsc : out7.scopeReviewDeadline = out5.scopeReviewDeadline :=
    Except.ok.inj ((b5 : getScopeReviewDeadline (jsOrNull data.bidDueDate)
      settings.scopeReviewDays = .ok out7.scopeReviewDeadline).symm.trans a5)
  have hac : out7.addendumCheckDeadline = out5.addendumCheckDeadline :=
    Except.ok.inj ((b6 : getAddendumCheckDeadline (jsOrNull data.bidDueDate)
      settings.addendumCheckDays = .ok out7.addendumCheckDeadline).symm.trans a6)
  refine ⟨by exact_mod_cast hv5, by exact_mod_cast hv7, ?_⟩
  rw [brec]
  conv_rhs => rw [arec]
  rw [hfb, hfr, hsb, hsc, hac]

/-- Witness for C8: default lead times versus bond-request 7 on a concrete
record. -/
theorem c8_bond_frame_witness :
    calculateInternalEvents projBid DEFAULT_LEAD_TIMES = .ok projBidOut ∧
    calculateInternalEvents projBid
      { DEFAULT_LEAD_TIMES with bondRequestDays := 7 } = .ok projBidOut7 ∧
    projBidOut7 = { projBidOut with
      bondRequestDeadline := projBidOut7.bondRequestDeadline } := by
  have h5 : calculateInternalEvents projBid DEFAULT_LEAD_TIMES
      = .ok projBidOut := by rfl
  have h7 : calculateInternalEvents projBid
      { DEFAULT_LEAD_TIMES with bondRequestDays := 7 } = .ok projBidOut7 := by rfl
  exact ⟨h5, h7, (c8_bond_frame projBid DEFAULT_LEAD_TIMES projBidOut projBidOut7
    "2025-01-15T17:00:00.000Z" 1736960400000 rfl rfl rfl h5 h7).2.2⟩

/-- Claim C6: for every record whose ten date fields are all null and every
export options value, `generateICS` returns (without throwing) exactly the
five fixed header lines and the `END:VCALENDAR` footer, with no VEVENT
block. -/
theorem c6_all_null_document : ∀ (ctx : GenCtx) (data : FullProjectData)
    (options : ExportOptions), allDatesNull data →
    generateICS ctx data options =
      "BEGIN:VCALENDAR\x0d\x0aVERSION:2.0\x0d\x0aPRODID:-//BidCalendarAI//Construction//EN\x0d\x0aCALSCALE:GREGORIAN\x0d\x0aMETHOD:PUBLISH\x0d\x0aEND:VCALENDAR" := by
  intro ctx data options h
  exact generateICS_allNull ctx options h

/-- Witness for C6 at a concrete all-null record. -/
theorem c6_all_null_document_witness :
    allDatesNull projNull ∧
    generateICS ctxA projNull opts0 =
      "BEGIN:VCALENDAR\x0d\x0aVERSION:2.0\x0d\x0aPRODID:-//BidCalendarAI//Construction//EN\x0d\x0aCALSCALE:GREGORIAN\x0d\x0aMETHOD:PUBLISH\x0d\x0aEND:VCALENDAR" := by
  refine ⟨⟨rfl, rfl, rfl, rfl, rfl, rfl, rfl, rfl, rfl, rfl⟩, ?_⟩
  exact c6_all_null_document ctxA projNull opts0
    ⟨rfl, rfl, rfl, rfl, rfl, rfl, rfl, rfl, rfl, rfl⟩

/-- Claim C4, counterexample: a generated document does not end with CRLF —
its final `END:VCALENDAR` line carries no terminator, contradicting the
claim that every line including the final one is CRLF-terminated (a line
ending in CRLF would make the last character the line feed \x0a, but the
document's last character is the R of END:VCALENDAR). -/
theorem c4_counterexample :
    generateICS ctxA projNull opts0 =
      "BEGIN:VCALENDAR\x0d\x0aVERSION:2.0\x0d\x0aPRODID:-//BidCalendarAI//Construction//EN\x0d\x0aCALSCALE:GREGORIAN\x0d\x0aMETHOD:PUBLISH\x0d\x0aEND:VCALENDAR" ∧
    (generateICS ctxA projNull opts0).data.getLast? = some 'R' := by
  constructor
  · rfl
  · rfl

/-- Claim C4 (amended): the document is the CRLF-*separated* join of its
lines — every line except the final one is CRLF-terminated — and the final
line is `END:VCALENDAR` with no trailing CRLF (the document's last
character is its `R`). -/
theorem c4_amended : ∀ (ctx : GenCtx) (data : FullProjectData)
    (options : ExportOptions),
    generateICS ctx data options =
      String.intercalate "\x0d\x0a" (icsLines ctx data options) ∧
    (∃ p, icsLines ctx data options = p ++ ["END:VCALENDAR"]) ∧
    (generateICS ctx data options).data.getLast? = some 'R' := by
  intro ctx data options
  refine ⟨jsJoin_eq_intercalate _ _, ⟨_, rfl⟩, ?_⟩
  obtain ⟨p2, hp2⟩ := jsJoin_append_last "\x0d\x0a"
    (["BEGIN:VCALENDAR", "VERSION:2.0", "PRODID:-//BidCalendarAI//Construction//EN",
      "CALSCALE:GREGORIAN", "METHOD:PUBLISH"] ++
      addEventLines ctx 0 options ("[BID DUE] " ++ data.projectName)
        data.bidDueDate
        ("CRITICAL DEADLINE: Official bid submission deadline for " ++
          data.projectName ++ ".\\n\\nAgency: " ++ data.agencyName ++ "\\n" ++
          icsBaseInfo data ++ icsFooter) data.projectAddress ++
      addEventLines ctx 1 options ("[RFI DUE] " ++ data.projectName)
        data.rfiDueDate
        ("Deadline to submit all Requests for Information (RFIs) to " ++
          data.agencyName ++ " for " ++ data.projectName ++ ".\\n\\n" ++
          icsBaseInfo data ++ icsFooter) data.projectAddress ++
      addEventLines ctx 2 options
        ("[" ++ (if data.isSiteVisitMandatory then "MANDATORY " else "") ++
          "SITE VISIT] " ++ data.projectName) data.siteVisitDate
        ((if data.isSiteVisitMandatory then "REQUIRED: " else "") ++
          "Site visit and pre-bid conference for " ++ data.projectName ++
          ".\\n\\n" ++ icsBaseInfo data ++ icsFooter) data.projectAddress ++
      addEventLines ctx 3 options ("[RSVP] Site Visit: " ++ data.projectName)
        data.rsvpDeadline
        ("Deadline to notify " ++ data.agencyName ++
          " of your intent to attend the site visit for " ++ data.projectName ++
          ".\\n\\n" ++ icsBaseInfo data ++ icsFooter) data.projectAddress ++
      (if options.includeInternal then
        addEventLines ctx 4 options
          ("[INTERNAL] Bond Request: " ++ data.projectName)
          data.bondRequestDeadline
          (icsBondDesc data ++
            "\\n\\nThis deadline is set before the bid is due to " ++
            data.agencyName ++ ".\\n\\n" ++ icsBaseInfo data ++ icsFooter) ++
        addEventLines ctx 5 options
          ("[INTERNAL] Finalize RFI List: " ++ data.projectName)
          data.finalizeRfiDeadline
          ("Internal Milestone: Finalize all technical questions for " ++
            data.projectName ++ " to ensure submission by the " ++
            data.agencyName ++ " RFI deadline.\\n\\n" ++ icsBaseInfo data ++
            icsFooter) ++
        addEventLines ctx 6 options
          ("[INTERNAL] Final Bid Package Prep: " ++ data.projectName)
          data.finalizeBidPackageDeadline
          ("Internal Milestone: Complete all estimate reviews and final documentation for the " ++
            data.projectName ++ " bid package.\\n\\n" ++ icsBaseInfo data ++
            icsFooter) ++
        addEventLines ctx 7 options
          ("[INTERNAL] Subcontractor Bids Due: " ++ data.projectName)
          data.subcontractorBidDeadline
          ("Internal Milestone: Deadline for subcontractor pricing submissions for " ++
            data.projectName ++
            ".\\n\\nEnsure all trades have submitted their numbers.\\n\\n" ++
            icsBaseInfo data ++ icsFooter) ++
        addEventLines ctx 8 options
          ("[INTERNAL] Scope Review: " ++ data.projectName)
          data.scopeReviewDeadline
          ("Internal Milestone: Complete detailed scope review and takeoffs for " ++
            data.projectName ++
            ".\\n\\nVerify quantities and identify any gaps.\\n\\n" ++
            icsBaseInfo data ++ icsFooter) ++
        addEventLines ctx 9 options
          ("[INTERNAL] Addendum Check: " ++ data.projectName)
          data.addendumCheckDeadline
          ("Internal Milestone: Final addendum review for " ++ data.projectName ++
            ".\\n\\nEnsure all addenda are incorporated into your bid.\\n\\n" ++
            icsBaseInfo data ++ icsFooter)
      else [])) "END:VCALENDAR"
  have hg : generateICS ctx data options = p2 ++ "END:VCALENDAR" := hp2
  rw [hg, String.data_append]
  rw [List.getLast?_append_of_ne_nil _ (by decide)]
  rfl

theorem jsToISOString_ends_Z (t : Int) :
    ∃ p, (jsToISOString t).data = p ++ ['Z'] := by
  show ∃ p, isoChars t = p ++ ['Z']
  unfold isoChars
  refine ⟨(if 0 ≤ (civilFromDays (t / 86400000)).year ∧
      (civilFromDays (t / 86400000)).year ≤ 9999 then
    pad4 (civilFromDays (t / 86400000)).year.toNat
  else
    (if (civilFromDays (t / 86400000)).year < 0 then '-' else '+') ::
      pad6 (civilFromDays (t / 86400000)).year.natAbs) ++
  '-' :: (pad2 (civilFromDays (t / 86400000)).month ++
  '-' :: (pad2 (civilFromDays (t / 86400000)).day ++
  'T' :: (pad2 ((t % 86400000).toNat / 3600000) ++
  ':' :: (pad2 ((t % 86400000).toNat % 3600000 / 60000) ++
  ':' :: (pad2 ((t % 86400000).toNat % 60000 / 1000) ++
  '.' :: pad3 ((t % 86400000).toNat % 1000)))))), ?_⟩
  simp [List.append_assoc]

theorem jsToISOString_ne_empty (t : Int) : jsToISOString t ≠ "" := by
  obtain ⟨p, hp⟩ := jsToISOString_ends_Z t
  intro he
  have h2 : (jsToISOString t).data = [] := by rw [he]
  rw [hp] at h2
  simp at h2

/-- Claim C5, counterexample: at the maximal representable instant, the
Google URL builder throws the RangeError of `endD.toISOString()` (start +
1 h leaves the Date range) instead of returning a URL, so the claim's
universally quantified URL half fails. -/
theorem c5_counterexample :
    generateGoogleCalendarUrl "x" (some "+275760-09-13T00:00:00.000Z") "d" ""
      = .error () := by rfl

/-- Claim C5 (amended): every event actually emitted into the ICS document
carries a `DTEND` encoding exactly the `DTSTART` instant plus 3600000 ms,
and whenever the Google or Outlook deep-link builders return a URL for a
valid instant whose successor hour is still representable, the encoded end
time is exactly one hour after the start. -/
theorem c5_one_hour :
    (∀ (ctx : GenCtx) (k : Nat) (options : ExportOptions)
      (s ds desc loc : String) (t : Int),
      jsDateParse ds = some t →
      (t + 3600000).natAbs ≤ 8640000000000000 →
      ∃ u st rest, addEventLines ctx k options s (some ds) desc loc =
        "BEGIN:VEVENT" :: u :: st :: ("DTSTART:" ++ compactOf t) ::
          ("DTEND:" ++ compactOf (t + 3600000)) :: rest) ∧
    (∀ (s ds desc loc : String) (t : Int),
      jsDateParse ds = some t →
      (t + 3600000).natAbs ≤ 8640000000000000 →
      generateGoogleCalendarUrl s (some ds) desc loc =
        .ok ("https://www.google.com/calendar/render?action=TEMPLATE&text=" ++
          formEncode s ++ "&dates=" ++
          formEncode (compactOf t ++ "/" ++ compactOf (t + 3600000)) ++
          "&details=" ++ formEncode desc ++
          "&location=" ++ formEncode loc)) ∧
    (∀ (s ds desc loc : String) (t : Int),
      jsDateParse ds = some t →
      (t + 3600000).natAbs ≤ 8640000000000000 →
      generateOutlookCalendarUrl s (some ds) desc loc =
        .ok ("https://outlook.office.com/calendar/0/deeplink/compose?path=" ++
          formEncode "/calendar/action/compose" ++ "&rru=addevent&subject=" ++
          formEncode s ++ "&startdt=" ++ formEncode (jsToISOString t) ++
          "&enddt=" ++ formEncode (jsToISOString (t + 3600000)) ++
          "&body=" ++ formEncode desc ++
          "&location=" ++ formEncode loc)) := by
  refine ⟨?_, ?_, ?_⟩
  · intro ctx k options s ds desc loc t hp hr
    have hds : ds ≠ "" := jsDateParse_some_ne_empty hp
    have hfds := formatDateStr_of_parse hp
    have hfe : ¬ (formatDateStr ds = "") := by
      rw [hfds]
      exact compactOf_ne_empty t
    have hfds2 := formatDateStr_toISOString hr
    have hce : ¬ (compactOf t = "") := compactOf_ne_empty t
    simp only [addEventLines, if_neg hds, hp, if_neg hfe, if_pos hr, hfds,
      hfds2, if_neg hce, List.cons_append]
    exact ⟨_, _, _, rfl⟩
  · intro s ds desc loc t hp hr
    have hds : ds ≠ "" := jsDateParse_some_ne_empty hp
    simp only [generateGoogleCalendarUrl, if_neg hds, hp, if_pos hr]
  · intro s ds desc loc t hp hr
    have hds : ds ≠ "" := jsDateParse_some_ne_empty hp
    simp only [generateOutlookCalendarUrl, if_neg hds, hp, if_pos hr]

/-- Witness for C5 (amended) at the instant 2025-01-15T17:00:00.000Z. -/
theorem c5_one_hour_witness :
    (∃ u st rest, addEventLines ctxA 0 opts0 "S"
      (some "2025-01-15T17:00:00.000Z") "D" "L" =
      "BEGIN:VEVENT" :: u :: st :: ("DTSTART:" ++ compactOf 1736960400000) ::
        ("DTEND:" ++ compactOf (1736960400000 + 3600000)) :: rest) ∧
    generateGoogleCalendarUrl "S" (some "2025-01-15T17:00:00.000Z") "D" "L" =
      .ok ("https://www.google.com/calendar/render?action=TEMPLATE&text=" ++
        formEncode "S" ++ "&dates=" ++
        formEncode (compactOf 1736960400000 ++ "/" ++
          compactOf (1736960400000 + 3600000)) ++
        "&details=" ++ formEncode "D" ++ "&location=" ++ formEncode "L") ∧
    generateOutlookCalendarUrl "S" (some "2025-01-15T17:00:00.000Z") "D" "L" =
      .ok ("https://outlook.office.com/calendar/0/deeplink/compose?path=" ++
        formEncode "/calendar/action/compose" ++ "&rru=addevent&subject=" ++
        formEncode "S" ++ "&startdt=" ++ formEncode (jsToISOString 1736960400000) ++
        "&enddt=" ++ formEncode (jsToISOString (1736960400000 + 3600000)) ++
        "&body=" ++ formEncode "D" ++ "&location=" ++ formEncode "L") := by
  refine ⟨?_, ?_, ?_⟩
  · exact c5_one_hour.1 ctxA 0 opts0 "S" "2025-01-15T17:00:00.000Z" "D" "L"
      1736960400000 rfl (by decide)
  · exact c5_one_hour.2.1 "S" "2025-01-15T17:00:00.000Z" "D" "L"
      1736960400000 rfl (by decide)
  · exact c5_one_hour.2.2 "S" "2025-01-15T17:00:00.000Z" "D" "L"
      1736960400000 rfl (by decide)

set_option maxRecDepth 100000 in
/-- Claim C9, counterexample: two `generateICS` runs on the same record and
options but with different ambient `Math.random` tokens produce different
documents (the UID lines differ), refuting the claim that two invocations
with identical inputs produce identical outputs. -/
theorem c9_counterexample :
    generateICS ctxA projBid opts0 ≠ generateICS ctxB projBid opts0 := by
  decide

/-- Claim C9 (amended): the serializer output is a deterministic function
of the record, the options, and the ambient generation context (current
clock reading and random token); the context influences only the UID and
DTSTAMP lines of each emitted event (lines 1 and 2 of the event block),
and a run that emits no events is context-independent. -/
theorem c9_context_dependence :
    (∀ (ctx ctx' : GenCtx) (k : Nat) (options : ExportOptions)
      (s desc loc : String) (ds : Option String) (i : Nat), i ≠ 1 → i ≠ 2 →
      (addEventLines ctx k options s ds desc loc)[i]? =
        (addEventLines ctx' k options s ds desc loc)[i]?) ∧
    (∀ (ctx ctx' : GenCtx) (data : FullProjectData) (options : ExportOptions),
      allDatesNull data →
      generateICS ctx data options = generateICS ctx' data options) := by
  constructor
  · intro ctx ctx' k options s desc loc ds i h1 h2
    cases ds with
    | none => rfl
    | some d =>
      by_cases hd : d = ""
      · simp [addEventLines, hd]
      · cases hp : jsDateParse d with
        | none => simp [addEventLines, hd, hp]
        | some t =>
          by_cases hf : formatDateStr d = ""
          · simp [addEventLines, hd, hp, hf]
          · by_cases hr : (t + 3600000).natAbs ≤ 8640000000000000
            · simp only [addEventLines, if_neg hd, hp, if_neg hf, if_pos hr,
                List.cons_append]
              match i with
              | 0 => rfl
              | 1 => exact absurd rfl h1
              | 2 => exact absurd rfl h2
              | (n+3) => simp only [List.getElem?_cons_succ]
            · simp [addEventLines, hd, hp, hf, hr]
  · intro ctx ctx' data options h
    rw [generateICS_allNull ctx options h, generateICS_allNull ctx' options h]

/-- Witness for C9 (amended). -/
theorem c9_context_dependence_witness :
    (addEventLines ctxA 0 opts0 "S" (some "2025-01-15T17:00:00.000Z") "D" "L")[0]?
      = (addEventLines ctxB 0 opts0 "S" (some "2025-01-15T17:00:00.000Z") "D" "L")[0]? ∧
    generateICS ctxA projNull opts0 = generateICS ctxB projNull opts0 := by
  constructor
  · exact c9_context_dependence.1 ctxA ctxB 0 opts0 "S" "D" "L"
      (some "2025-01-15T17:00:00.000Z") 0 (by decide) (by decide)
  · exact c9_context_dependence.2 ctxA ctxB projNull opts0
      ⟨rfl, rfl, rfl, rfl, rfl, rfl, rfl, rfl, rfl, rfl⟩

/-- Claim C10: every non-null string the deriver returns is in canonical
`toISOString` form (the rendering of a valid instant, trailing `Z`),
parses back to exactly the instant it encodes, and is accepted unchanged
as the anchor of a subsequent derivation. -/
theorem c10_canonical : ∀ (a : Option String) (D : Nat) (o : String),
    getDeadlineBefore a D = .ok (some o) →
    ∃ t : Int, t.natAbs ≤ 8640000000000000 ∧ o = jsToISOString t ∧
      jsDateParse o = some t ∧ (∃ p, o.data = p ++ ['Z']) ∧
      getDeadlineBefore (some o) 0 = .ok (some o) := by
  intro a D o h
  cases a with
  | none => exact absurd h (by simp [getDeadlineBefore])
  | some s =>
    by_cases hs : s = ""
    · subst hs
      exact absurd h (by simp [getDeadlineBefore])
    · cases hp : jsDateParse s with
      | none => exact absurd h (by simp [getDeadlineBefore, hs, hp])
      | some t0 =>
        rw [getDeadlineBefore_of_parse D hp] at h
        by_cases hr : (t0 - (D : Int) * 86400000).natAbs ≤ 8640000000000000
        · rw [if_pos hr] at h
          have ho : o = jsToISOString (t0 - (D : Int) * 86400000) :=
            (Option.some.inj (Except.ok.inj h)).symm
          have hpo : jsDateParse o = some (t0 - (D : Int) * 86400000) := by
            rw [ho]
            exact jsDateParse_toISOString _ hr
          refine ⟨t0 - (D : Int) * 86400000, hr, ho, hpo, ?_, ?_⟩
          · rw [ho]
            exact jsToISOString_ends_Z _
          · rw [getDeadlineBefore_of_parse 0 hpo]
            have hz : t0 - (D : Int) * 86400000 - ((0 : Nat) : Int) * 86400000
                = t0 - (D : Int) * 86400000 := by simp
            rw [hz, if_pos hr, ho]
        · rw [if_neg hr] at h
          exact Except.noConfusion h

/-- Witness for C10 at the spec's end-to-end example. -/
theorem c10_canonical_witness :
    getDeadlineBefore (some "2025-01-15T17:00:00.000Z") 5 =
      .ok (some "2025-01-10T17:00:00.000Z") ∧
    (∃ t : Int, t.natAbs ≤ 8640000000000000 ∧
      "2025-01-10T17:00:00.000Z" = jsToISOString t ∧
      jsDateParse "2025-01-10T17:00:00.000Z" = some t ∧
      (∃ p, ("2025-01-10T17:00:00.000Z" : String).data = p ++ ['Z']) ∧
      getDeadlineBefore (some "2025-01-10T17:00:00.000Z") 0 =
        .ok (some "2025-01-10T17:00:00.000Z")) := by
  have h : getDeadlineBefore (some "2025-01-15T17:00:00.000Z") 5 =
      .ok (some "2025-01-10T17:00:00.000Z") := by rfl
  exact ⟨h, c10_canonical (some "2025-01-15T17:00:00.000Z") 5
    "2025-01-10T17:00:00.000Z" h⟩
